import Mathlib

/-
Verification of the image-layout engine in src/imager/imager.py.

Modelling conventions (shallow embedding):

* A PIL image is modelled by its observable attributes used by the code:
  width, height and color mode.  The extra Boolean field `orig` marks
  whether a value denotes the caller's original image object (or an alias
  of it, such as the object returned unchanged by a no-op mode
  conversion); every image newly allocated by a PIL primitive carries
  `orig = false`.  An in-place primitive (thumbnail, paste) keeps the
  flag of its receiver, so the trace records whether an in-place
  operation was ever applied to the caller's object.

* Computations run in a monad `M` that carries an error channel
  (Python exceptions), a counter of PIL primitive invocations, and a
  trace of the PIL operations performed.  PIL primitives are fallible
  black boxes: an `Oracle` decides, per invocation, whether the
  primitive raises (modelling corrupt data, I/O errors surfaced through
  the imaging library, and similar recoverable failures).  Universally
  quantifying theorems over the oracle states them for every pattern of
  primitive failure.  `try/except (OSError, ValueError,
  UnidentifiedImageError)` is modelled by `tryRecover`, which catches
  exactly those three error classes; ZeroDivisionError (raised by `/`
  on a zero denominator, in the code's own arithmetic or inside a
  primitive) is not caught, as in the source.

* Python floats are modelled by exact rational arithmetic, written with
  integer cross-multiplication so that everything computes: for the
  magnitudes handled here (image dimensions), IEEE double arithmetic of
  the expressions in the source agrees exactly with the rational value,
  so this is faithful.  `int(...)` truncation of a nonnegative quotient
  is Nat floor division; Python's `//` (floor division, also on
  negative operands) is `Int.fdiv`.

* `thumbnail` is a third-party PIL primitive (out of scope per the
  spec, which documents it as shrink-only aspect-preserving fit); its
  size computation is modelled after Pillow's documented behaviour in
  exact arithmetic.
-/

/-- PIL color modes occurring in or relevant to the code: palette,
true-color with alpha, true-color, grayscale, grayscale with alpha,
and a representative other mode. -/
inductive Mode
  | P
  | RGBA
  | RGB
  | L
  | LA
  | CMYK
deriving DecidableEq

/-- The observable state of a PIL image: size, mode, and whether the
value denotes the caller's original image object (see header). -/
structure Img where
  width : Nat
  height : Nat
  mode : Mode
  orig : Bool
deriving DecidableEq

/-- The Python exceptions relevant to the code: the three classes caught
by its `except` clauses, and ZeroDivisionError which is not caught. -/
inductive PyErr
  | osError
  | valueError
  | unidentifiedImageError
  | zeroDivisionError
deriving DecidableEq

/-- Trace entries: one per PIL primitive invocation, plus warning logs.
Each image-consuming entry records whether its receiver was the
caller's original object. -/
inductive Op
  | resize (w h : Nat) (onOrig : Bool)
  | crop (l t r b : Int) (onOrig : Bool)
  | thumbnail (w h : Nat) (onOrig : Bool)
  | paste (x y : Int) (mask : Bool) (dstOrig : Bool)
  | convert (m : Mode) (onOrig : Bool)
  | copy (onOrig : Bool)
  | autocontrast (onOrig : Bool)
  | expand (border : Int) (onOrig : Bool)
  | blur (radius : Int) (onOrig : Bool)
  | newImage (w h : Nat)
  | warn
deriving DecidableEq

/-- True for a trace entry that records an in-place mutation of the
caller's original image object.  `thumbnail` and `paste` are the only
in-place PIL operations the code uses. -/
def mutatesOriginal : Op → Bool
  | Op.thumbnail _ _ b => b
  | Op.paste _ _ _ b => b
  | _ => false

/-- The recoverable error classes an imaging primitive can surface,
per the error taxonomy of the code and the spec: OSError, ValueError,
UnidentifiedImageError. -/
inductive PrimErr
  | osError
  | valueError
  | unidentifiedImageError
deriving DecidableEq

/-- View a primitive failure as a Python exception. -/
def PrimErr.toPyErr : PrimErr → PyErr
  | PrimErr.osError => PyErr.osError
  | PrimErr.valueError => PyErr.valueError
  | PrimErr.unidentifiedImageError => PyErr.unidentifiedImageError

/-- Failure oracle: for each PIL primitive invocation (numbered from 0),
optionally the exception it raises. -/
def Oracle : Type := Nat → Option PrimErr

/-- The computation monad: given the oracle and the index of the next
primitive invocation, produce a result or an exception, the next index,
and the trace of performed operations. -/
def M (α : Type) : Type := Oracle → Nat → Except PyErr α × Nat × List Op

def M.pure {α : Type} (a : α) : M α := fun _ n => (Except.ok a, n, [])

def M.bind {α β : Type} (m : M α) (f : α → M β) : M β := fun o n =>
  match m o n with
  | (Except.ok a, n1, t1) =>
    match f a o n1 with
    | (r, n2, t2) => (r, n2, t1 ++ t2)
  | (Except.error e, n1, t1) => (Except.error e, n1, t1)

instance : Monad M where
  pure := M.pure
  bind := M.bind

/-- Raising a Python exception. -/
def raiseM {α : Type} (e : PyErr) : M α := fun _ n => (Except.error e, n, [])

/-- Lift an exception-or-value (pure arithmetic that may raise) into `M`. -/
def liftE {α : Type} (e : Except PyErr α) : M α := fun _ n => (e, n, [])

/-- A `logger.warning` call: recorded in the trace, cannot fail. -/
def warnM : M Unit := fun _ n => (Except.ok (), n, [Op.warn])

/-- One PIL primitive invocation with nominal result `v`: consumes one
oracle tick and raises if the oracle says so. -/
def prim {α : Type} (op : Op) (v : α) : M α := fun o n =>
  match o n with
  | some e => (Except.error e.toPyErr, n + 1, [op])
  | none => (Except.ok v, n + 1, [op])

/-- The error classes caught by `except (OSError, ValueError,
Image.UnidentifiedImageError)`. -/
def catchable : PyErr → Bool
  | PyErr.osError => true
  | PyErr.valueError => true
  | PyErr.unidentifiedImageError => true
  | PyErr.zeroDivisionError => false

/-- Model of `try: ... except (OSError, ValueError,
Image.UnidentifiedImageError): logger.error(...); return None`. -/
def tryRecover (m : M (Option Img)) : M (Option Img) := fun o n =>
  match m o n with
  | (Except.ok a, n1, t1) => (Except.ok a, n1, t1)
  | (Except.error e, n1, t1) =>
    if catchable e then (Except.ok none, n1, t1) else (Except.error e, n1, t1)

/-- Python `int(a * b / c)` on nonnegative integers `a b c`: float
division then truncation toward zero, which for these magnitudes equals
exact floor division; raises ZeroDivisionError when `c = 0`. -/
def intScale (a b c : Nat) : Except PyErr Nat :=
  if c = 0 then Except.error PyErr.zeroDivisionError else Except.ok (a * b / c)

/-- Python `a / b < c / d` on nonnegative integers (float comparison,
exact at these magnitudes): raises ZeroDivisionError on a zero
denominator, checking `b` first as Python evaluates left to right. -/
def ratioLt (a b c d : Nat) : Except PyErr Bool :=
  if b = 0 then Except.error PyErr.zeroDivisionError
  else if d = 0 then Except.error PyErr.zeroDivisionError
  else Except.ok (decide (a * d < c * b))

/-- Python `a / b > c / d` on nonnegative integers, analogously. -/
def ratioGt (a b c d : Nat) : Except PyErr Bool :=
  if b = 0 then Except.error PyErr.zeroDivisionError
  else if d = 0 then Except.error PyErr.zeroDivisionError
  else Except.ok (decide (c * b < a * d))

/-- An exact nonnegative fraction, standing for a Python float ratio
(the float values arising here are exactly these rationals for all
realistic dimensions). -/
structure Frac where
  num : Nat
  den : Nat
deriving DecidableEq

/-- Comparison of fractions with positive denominators. -/
def Frac.fle (a b : Frac) : Bool := decide (a.num * b.den ≤ b.num * a.den)

/-- Python `min` of two floats: the first argument when it is not
greater. -/
def Frac.fmin (a b : Frac) : Frac := if Frac.fle a b then a else b

/-- Python `int(n * f)` for a nonnegative float `f`: truncation toward
zero of an exact nonnegative product, i.e. floor. -/
def Frac.scaleTrunc (n : Nat) (f : Frac) : Nat := n * f.num / f.den

/-- Python `a / b` producing a float ratio; ZeroDivisionError on `b = 0`. -/
def fracDiv (a b : Nat) : Except PyErr Frac :=
  if b = 0 then Except.error PyErr.zeroDivisionError else Except.ok ⟨a, b⟩

/-- Modelled from the spec (§6 imaging collaborator contract) and
Pillow's documented behaviour: the size computed by
`Image.thumbnail((x, y))` on a `w×h` image — a no-op when the image
already fits, otherwise a shrink preserving aspect ratio, rounding the
scaled axis to the nearest of floor/ceil (floor on ties) and at least 1.
Raises ZeroDivisionError on the degenerate inputs where Pillow's own
float divisions would. -/
def thumbFitSize (w h x y : Nat) : Except PyErr (Nat × Nat) :=
  if x ≥ w ∧ y ≥ h then Except.ok (w, h)
  else if h = 0 then Except.error PyErr.zeroDivisionError
  else if y = 0 then Except.error PyErr.zeroDivisionError
  else if w * y ≤ x * h then
    -- new width = round_aspect(y * w / h), key n ↦ |w/h - n/y|
    let f := y * w / h
    let c := (y * w + h - 1) / h
    let xr :=
      if |((w * y : Nat) : Int) - ((f * h : Nat) : Int)|
          ≤ |((w * y : Nat) : Int) - ((c * h : Nat) : Int)| then f else c
    Except.ok (max xr 1, y)
  else
    -- here w * y > x * h, hence w > 0
    -- new height = round_aspect(x * h / w), key n ↦ if n = 0 then 0 else |w/h - x/n|
    let f := x * h / w
    let c := (x * h + w - 1) / w
    let yr :=
      if f = 0 then f
      else if |((w * f : Nat) : Int) - ((x * h : Nat) : Int)| * c
          ≤ |((w * c : Nat) : Int) - ((x * h : Nat) : Int)| * f then f else c
    Except.ok (x, max yr 1)

/-- PIL `Image.resize((w, h))`: a new image of exactly the requested
size, same mode. -/
def resizeM (image : Img) (w h : Nat) : M Img :=
  prim (Op.resize w h image.orig)
    { width := w, height := h, mode := image.mode, orig := false }

/-- PIL `Image.crop((l, t, r, b))`: a new image of size
`(r - l, b - t)`; coordinates may lie outside the source (PIL pads);
an inverted box raises ValueError. -/
def cropM (image : Img) (l t r b : Int) : M Img :=
  if r < l ∨ b < t then raiseM PyErr.valueError
  else prim (Op.crop l t r b image.orig)
    { width := (r - l).toNat, height := (b - t).toNat, mode := image.mode, orig := false }

/-- PIL `Image.thumbnail((x, y))`: in-place shrink of the receiver. -/
def thumbnailM (image : Img) (x y : Nat) : M Img := do
  let s ← liftE (thumbFitSize image.width image.height x y)
  prim (Op.thumbnail x y image.orig) { image with width := s.1, height := s.2 }

/-- PIL `Image.paste(src, (x, y)[, mask])`: in-place write into the
receiver; size and mode of the receiver are unchanged. -/
def pasteM (background : Img) (_foreground : Img) (x y : Int) (mask : Bool) : M Img :=
  prim (Op.paste x y mask background.orig) background

/-- PIL `Image.convert(mode)`: a new image in the requested mode. -/
def convertM (image : Img) (m : Mode) : M Img :=
  prim (Op.convert m image.orig)
    { width := image.width, height := image.height, mode := m, orig := false }

/-- PIL `Image.copy()`: a new image equal to the receiver. -/
def copyM (image : Img) : M Img :=
  prim (Op.copy image.orig) { image with orig := false }

/-- PIL `ImageOps.autocontrast`: a new image, same size and mode. -/
def autocontrastM (image : Img) : M Img :=
  prim (Op.autocontrast image.orig) { image with orig := false }

/-- PIL `ImageOps.expand(border, fill)`: a new image grown by `border`
pixels on each side. -/
def expandM (image : Img) (border : Int) : M Img :=
  prim (Op.expand border image.orig)
    { width := ((image.width : Int) + 2 * border).toNat,
      height := ((image.height : Int) + 2 * border).toNat,
      mode := image.mode, orig := false }

/-- PIL `Image.filter(ImageFilter.GaussianBlur(radius))`: a new image,
same size and mode; a negative radius raises ValueError. -/
def blurM (image : Img) (radius : Int) : M Img :=
  if radius < 0 then raiseM PyErr.valueError
  else prim (Op.blur radius image.orig) { image with orig := false }

/-- PIL `Image.new("RGB", (w, h))`: a fresh blank true-color image. -/
def newM (w h : Nat) : M Img :=
  prim (Op.newImage w h) { width := w, height := h, mode := Mode.RGB, orig := false }

/-- The `Config` dataclass: settings for image composition. -/
structure Config where
  background_blur : Bool := true
  background_blur_radius : Int := 75
  foreground_border : Bool := true
  foreground_border_width : Int := 1
  foreground_border_color : List Nat := [255, 255, 255]
  force_fit : Bool := true
deriving DecidableEq

/-- The `Imager` instance state: template size (default `(700, 365)`)
and configuration, both fixed at construction. -/
structure Imager where
  output_width : Nat
  output_height : Nat
  config : Config
deriving DecidableEq

/-- The argument of `process_image`: either a PIL image or some other
Python value (the `isinstance` check distinguishes them). -/
inductive PyVal
  | image (img : Img)
  | notImage

/-- `SCALE_UP_LIMIT = 2.0`: cap upscaling at 2x original size. -/
def Imager.SCALE_UP_LIMIT : Frac := ⟨2, 1⟩

/-- `is_template_landscape`: `output_width > output_height`. -/
def Imager.is_template_landscape (I : Imager) : Bool :=
  decide (I.output_height < I.output_width)

/-- `is_template_portrait`: `output_width < output_height`. -/
def Imager.is_template_portrait (I : Imager) : Bool :=
  decide (I.output_width < I.output_height)

/-- `is_image_portrait`: `image.width < image.height`. -/
def Imager.is_image_portrait (_I : Imager) (image : Img) : Bool :=
  decide (image.width < image.height)

/-- `is_image_landscape`: `image.width > image.height`. -/
def Imager.is_image_landscape (_I : Imager) (image : Img) : Bool :=
  decide (image.height < image.width)

/-- `is_image_square`: neither portrait nor landscape. -/
def Imager.is_image_square (I : Imager) (image : Img) : Bool :=
  !(I.is_image_portrait image) && !(I.is_image_landscape image)

/-- `is_image_too_small_for_template`: width or height below
`0.75 * template` (0.75 is exact in binary floating point, so the float
comparison equals the exact comparison `4 * dim < 3 * template`). -/
def Imager.is_image_too_small_for_template (I : Imager) (image : Img) : Bool :=
  decide (4 * image.width < 3 * I.output_width)
    || decide (4 * image.height < 3 * I.output_height)

/-- `is_image_too_narrow_for_template`:
`image.width / image.height < output_width / output_height`. -/
def Imager.is_image_too_narrow_for_template (I : Imager) (image : Img) :
    Except PyErr Bool :=
  ratioLt image.width image.height I.output_width I.output_height

/-- `is_image_too_wide_for_template`:
`image.width / image.height > output_width / output_height`. -/
def Imager.is_image_too_wide_for_template (I : Imager) (image : Img) :
    Except PyErr Bool :=
  ratioGt image.width image.height I.output_width I.output_height

/-- `_convert_image_mode`: palette to RGBA, then RGBA to RGB; any other
mode is returned unconverted. -/
def Imager.convert_image_mode (_I : Imager) (image : Img) : M Img := do
  let image ← (if image.mode = Mode.P then convertM image Mode.RGBA else pure image)
  let image ← (if image.mode = Mode.RGBA then convertM image Mode.RGB else pure image)
  pure image

/-- `_fit_portrait_to_landscape`: scale to template width, then crop
height with a quarter offset from the top. -/
def Imager.fit_portrait_to_landscape (I : Imager) (image : Img) : M Img := do
  let projected_w := I.output_width
  let projected_h ← liftE (intScale I.output_width image.height image.width)
  let resized ← resizeM image projected_w projected_h
  let top : Int := Int.fdiv ((projected_h : Int) - (I.output_height : Int)) 4
  cropM resized 0 top (I.output_width : Int) (top + (I.output_height : Int))

/-- `_fit_landscape_to_portrait`: scale to template height, then crop
width with a quarter offset from the left. -/
def Imager.fit_landscape_to_portrait (I : Imager) (image : Img) : M Img := do
  let projected_h := I.output_height
  let projected_w ← liftE (intScale I.output_height image.width image.height)
  let resized ← resizeM image projected_w projected_h
  let left : Int := Int.fdiv ((projected_w : Int) - (I.output_width : Int)) 4
  cropM resized left 0 (left + (I.output_width : Int)) (I.output_height : Int)

/-- `_resize_proportionally`: scale so the template's constraining axis
matches, preserving aspect ratio; no crop. -/
def Imager.resize_proportionally (I : Imager) (image : Img) : M Img :=
  if I.is_template_landscape then do
    let projected_h ← liftE (intScale I.output_width image.height image.width)
    resizeM image I.output_width projected_h
  else do
    let projected_w ← liftE (intScale I.output_height image.width image.height)
    resizeM image projected_w I.output_height

/-- `_fit_wide_to_landscape`: on `force_fit`, scale to template height
and center-crop the width (half offset); otherwise resize
proportionally. -/
def Imager.fit_wide_to_landscape (I : Imager) (image : Img) : M Img :=
  if I.config.force_fit then do
    let projected_w ← liftE (intScale I.output_height image.width image.height)
    let resized ← resizeM image projected_w I.output_height
    let left : Int := Int.fdiv ((projected_w : Int) - (I.output_width : Int)) 2
    cropM resized left 0 (left + (I.output_width : Int)) (I.output_height : Int)
  else I.resize_proportionally image

/-- `_fit_tall_to_portrait`: on `force_fit`, scale to template width and
center-crop the height (half offset); otherwise resize proportionally. -/
def Imager.fit_tall_to_portrait (I : Imager) (image : Img) : M Img :=
  if I.config.force_fit then do
    let projected_h ← liftE (intScale I.output_width image.height image.width)
    let resized ← resizeM image I.output_width projected_h
    let top : Int := Int.fdiv ((projected_h : Int) - (I.output_height : Int)) 2
    cropM resized 0 top (I.output_width : Int) (top + (I.output_height : Int))
  else I.resize_proportionally image

/-- `_should_scale_up`: the image is strictly smaller than the bounding
box on both axes. -/
def Imager.should_scale_up (_I : Imager) (image : Img) (max_w max_h : Nat) : Bool :=
  decide (image.width < max_w) && decide (image.height < max_h)

/-- `_scale_up_image`: scale up by
`min(max_w / orig_w, max_h / orig_h, SCALE_UP_LIMIT)`. -/
def Imager.scale_up_image (_I : Imager) (image : Img) (max_w max_h : Nat) : M Img := do
  let orig_w := image.width
  let orig_h := image.height
  let ratio_w ← liftE (fracDiv max_w orig_w)
  let ratio_h ← liftE (fracDiv max_h orig_h)
  let fit_ratio := Frac.fmin ratio_w ratio_h
  let scale_ratio := Frac.fmin fit_ratio Imager.SCALE_UP_LIMIT
  let new_w := Frac.scaleTrunc orig_w scale_ratio
  let new_h := Frac.scaleTrunc orig_h scale_ratio
  if 0 < new_w ∧ 0 < new_h then resizeM image new_w new_h
  else pure image

/-- `_resize_foreground`: fit within 80% of the template
(`int(dim * 0.8)`, which for realistic sizes equals `4 * dim / 5`):
scale up small images, thumbnail-shrink the rest. -/
def Imager.resize_foreground (I : Imager) (image : Img) : M Img := do
  let max_w := 4 * I.output_width / 5
  let max_h := 4 * I.output_height / 5
  if I.should_scale_up image max_w max_h then I.scale_up_image image max_w max_h
  else thumbnailM image max_w max_h

/-- `_convert_image_for_border`: RGBA for a transparent border color,
RGB otherwise. -/
def Imager.convert_image_for_border (_I : Imager) (image : Img)
    (has_transparent_border : Bool) : M Img :=
  if has_transparent_border then
    if image.mode ≠ Mode.RGBA then convertM image Mode.RGBA else pure image
  else
    if image.mode = Mode.RGBA then convertM image Mode.RGB else pure image

/-- `_calculate_safe_border_width`: clamp the configured border width to
the template margin when the margin is positive but smaller, logging a
warning. -/
def Imager.calculate_safe_border_width (I : Imager) (image : Img) : M Int := do
  let max_allowed_border : Int :=
    min (Int.fdiv ((I.output_width : Int) - (image.width : Int)) 2)
        (Int.fdiv ((I.output_height : Int) - (image.height : Int)) 2)
  let border_width : Int := I.config.foreground_border_width
  if 0 < max_allowed_border ∧ max_allowed_border < border_width then do
    warnM
    pure max_allowed_border
  else pure border_width

/-- `_apply_border`: no-op unless configured with a positive width;
otherwise convert for the border color, compute the safe width, and
expand. -/
def Imager.apply_border (I : Imager) (image : Img) : M Img := do
  if I.config.foreground_border = false ∨ I.config.foreground_border_width ≤ 0 then
    pure image
  else do
    let has_transparent_border := I.config.foreground_border_color.length == 4
    let image2 ← I.convert_image_for_border image has_transparent_border
    let border_width ← I.calculate_safe_border_width image2
    if 0 < border_width then expandM image2 border_width
    else pure image2

/-- `_create_foreground_image`: copy, resize to the 80% box,
autocontrast, border. -/
def Imager.create_foreground_image (I : Imager) (image : Img) : M Img := do
  let foreground ← copyM image
  let foreground ← I.resize_foreground foreground
  let foreground ← autocontrastM foreground
  let foreground ← I.apply_border foreground
  pure foreground

/-- `_calculate_landscape_canvas`: cover the template, fitting by width
when the image is relatively narrower, by height otherwise. -/
def Imager.calculate_landscape_canvas (I : Imager) (image : Img) :
    Except PyErr (Nat × Nat) := do
  let lt ← ratioLt image.width image.height I.output_width I.output_height
  if lt then do
    let canvas_h ← intScale I.output_width image.height image.width
    pure (I.output_width, canvas_h)
  else do
    let canvas_w ← intScale I.output_height image.width image.height
    pure (canvas_w, I.output_height)

/-- `_calculate_portrait_canvas`: cover the template, fitting by height
when the image is relatively wider, by width otherwise. -/
def Imager.calculate_portrait_canvas (I : Imager) (image : Img) :
    Except PyErr (Nat × Nat) := do
  let gt ← ratioGt image.width image.height I.output_width I.output_height
  if gt then do
    let canvas_w ← intScale I.output_height image.width image.height
    pure (canvas_w, I.output_height)
  else do
    let canvas_h ← intScale I.output_width image.height image.width
    pure (I.output_width, canvas_h)

/-- `_calculate_canvas_dimensions`: dispatch on template orientation. -/
def Imager.calculate_canvas_dimensions (I : Imager) (image : Img) :
    Except PyErr (Nat × Nat) :=
  if I.is_template_landscape then I.calculate_landscape_canvas image
  else I.calculate_portrait_canvas image

/-- `_calculate_background_crop_box`: center the template window on the
canvas, clamped to the canvas bounds. -/
def Imager.calculate_background_crop_box (I : Imager) (canvas : Img) :
    Int × Int × Int × Int :=
  let left := max 0 (Int.fdiv ((canvas.width : Int) - (I.output_width : Int)) 2)
  let top := max 0 (Int.fdiv ((canvas.height : Int) - (I.output_height : Int)) 2)
  let right := min (canvas.width : Int) (left + (I.output_width : Int))
  let bottom := min (canvas.height : Int) (top + (I.output_height : Int))
  (left, top, right, bottom)

/-- `_crop_image_and_ensure_size`: crop, then force-resize to the exact
template size if rounding left a different size. -/
def Imager.crop_image_and_ensure_size (I : Imager) (canvas : Img)
    (crop_box : Int × Int × Int × Int) : M Img := do
  let background ← cropM canvas crop_box.1 crop_box.2.1 crop_box.2.2.1 crop_box.2.2.2
  if (background.width, background.height) ≠ (I.output_width, I.output_height) then
    resizeM background I.output_width I.output_height
  else pure background

/-- `_resize_image_for_background`: resize to the covering canvas, or
fall back to a blank template-size canvas when the computed size is
degenerate (logging a warning). -/
def Imager.resize_image_for_background (I : Imager) (image : Img) : M Img := do
  let cd ← liftE (I.calculate_canvas_dimensions image)
  if cd.1 = 0 ∨ cd.2 = 0 then do
    warnM
    newM I.output_width I.output_height
  else resizeM image cd.1 cd.2

/-- `_create_background_image`: copy, resize to cover, center-crop to
the template, optionally blur. -/
def Imager.create_background_image (I : Imager) (image : Img) : M Img := do
  let image_copy ← copyM image
  let canvas ← I.resize_image_for_background image_copy
  let crop_box := I.calculate_background_crop_box canvas
  let background ← I.crop_image_and_ensure_size canvas crop_box
  if I.config.background_blur then blurM background I.config.background_blur_radius
  else pure background

/-- `_create_combo`: bordered foreground pasted centered on a blurred
background; its own try/except returns None on recoverable failure. -/
def Imager.create_combo (I : Imager) (image : Img) : M (Option Img) :=
  tryRecover (do
    let foreground ← I.create_foreground_image image
    let background ← I.create_background_image image
    let top_left_x := Int.fdiv ((I.output_width : Int) - (foreground.width : Int)) 2
    let top_left_y := Int.fdiv ((I.output_height : Int) - (foreground.height : Int)) 2
    let composed ←
      (if foreground.mode = Mode.RGBA then
        pasteM background foreground top_left_x top_left_y true
      else pasteM background foreground top_left_x top_left_y false)
    pure (some composed))

/-- `_handle_landscape_template`: portrait or too-narrow images are
force-fit or sent to the combo; the rest go to the wide fit. -/
def Imager.handle_landscape_template (I : Imager) (image : Img) : M (Option Img) := do
  let cond ←
    (if I.is_image_portrait image then pure true
     else liftE (I.is_image_too_narrow_for_template image))
  if cond then
    if I.config.force_fit then do
      let r ← I.fit_portrait_to_landscape image
      pure (some r)
    else I.create_combo image
  else do
    let r ← I.fit_wide_to_landscape image
    pure (some r)

/-- `_handle_portrait_template`: landscape or too-wide images are
force-fit or sent to the combo; the rest go to the tall fit. -/
def Imager.handle_portrait_template (I : Imager) (image : Img) : M (Option Img) := do
  let cond ←
    (if I.is_image_landscape image then pure true
     else liftE (I.is_image_too_wide_for_template image))
  if cond then
    if I.config.force_fit then do
      let r ← I.fit_landscape_to_portrait image
      pure (some r)
    else I.create_combo image
  else do
    let r ← I.fit_tall_to_portrait image
    pure (some r)

/-- `_resize_to_template`: convert mode, route by size and orientation;
recoverable errors anywhere inside yield None. -/
def Imager.resize_to_template (I : Imager) (image : Img) : M (Option Img) :=
  tryRecover (do
    let image ← I.convert_image_mode image
    if I.is_image_too_small_for_template image then I.create_combo image
    else if I.is_template_landscape then I.handle_landscape_template image
    else I.handle_portrait_template image)

/-- `process_image`: usage error on a non-image argument, otherwise
resize to the template. -/
def Imager.process_image (I : Imager) (v : PyVal) : M (Option Img) :=
  match v with
  | PyVal.image img => I.resize_to_template img
  | PyVal.notImage => raiseM PyErr.valueError

/-- The imager with a given `force_fit` setting and everything else
unchanged. -/
def setForceFit (I : Imager) (b : Bool) : Imager :=
  { I with config := { I.config with force_fit := b } }

/-- Postcondition on success: whenever the computation returns a value
(for some oracle and start index), that value satisfies `P`.  Failures
are not constrained. -/
def Succ {α : Type} (m : M α) (P : α → Prop) : Prop :=
  ∀ o n r n2 t, m o n = (Except.ok r, n2, t) → P r

/-- A computation whose trace never contains an in-place mutation of
the caller's original image object. -/
def Clean {α : Type} (m : M α) : Prop :=
  ∀ o n op, op ∈ (m o n).2.2 → mutatesOriginal op = false

/-- A computation that never terminates with ZeroDivisionError (the
only exception class the code does not catch). -/
def NoZ {α : Type} (m : M α) : Prop :=
  ∀ o n, (m o n).1 ≠ Except.error PyErr.zeroDivisionError

/-- The oracle under which no primitive fails (nominal execution). -/
def okOracle : Oracle := fun _ => none

/-- A 700x365 landscape template with the default configuration
(`force_fit = true`). -/
def I0 : Imager := { output_width := 700, output_height := 365, config := {} }

/-- The 700x365 template with `force_fit = false`. -/
def IFalse : Imager :=
  { output_width := 700, output_height := 365, config := { force_fit := false } }

/-- A 200x400 portrait true-color source image (the caller's object). -/
def img200 : Img := { width := 200, height := 400, mode := Mode.RGB, orig := true }

/-- A 1000x400 landscape true-color source image (the caller's object). -/
def img1000 : Img := { width := 1000, height := 400, mode := Mode.RGB, orig := true }

/-- A 700x365 source image in grayscale-with-alpha mode. -/
def imgLA : Img := { width := 700, height := 365, mode := Mode.LA, orig := true }

/-- A degenerate zero-size image (PIL permits constructing these). -/
def img0 : Img := { width := 0, height := 0, mode := Mode.RGB, orig := true }

/-- The 700x365 template with a configured border width of 10. -/
def I6 : Imager :=
  { output_width := 700, output_height := 365,
    config := { foreground_border_width := 10 } }

/-- A 690x360 true-color image: it leaves margins of 5 and 2 pixels
inside the 700x365 template, so the minimum margin is 2. -/
def img690 : Img := { width := 690, height := 360, mode := Mode.RGB, orig := true }

/-- A 50x20 true-color image, well below the 80 percent box 560x292. -/
def img50 : Img := { width := 50, height := 20, mode := Mode.RGB, orig := true }

theorem Succ.bindM {α β : Type} {m : M α} {f : α → M β} {P : α → Prop} {Q : β → Prop}
    (hm : Succ m P) (hf : ∀ a, P a → Succ (f a) Q) : Succ (m >>= f) Q := by
  intro o n r n2 t h
  have h2 : (match m o n with
    | (Except.ok a, n1, t1) =>
      match f a o n1 with
      | (r2, n3, t2) => (r2, n3, t1 ++ t2)
    | (Except.error e, n1, t1) => (Except.error e, n1, t1)) = (Except.ok r, n2, t) := h
  split at h2
  case _ a n1 t1 heq1 =>
    rcases hf2 : f a o n1 with ⟨r2, n3, t2⟩
    simp only [hf2, Prod.mk.injEq] at h2
    obtain ⟨hb, -, -⟩ := h2
    cases r2 with
    | error e => simp at hb
    | ok b =>
      simp only [Except.ok.injEq] at hb
      subst hb
      exact hf a (hm o n a n1 t1 heq1) o n1 b n3 t2 hf2
  case _ e n1 t1 heq1 => simp at h2

theorem Succ.pureM {α : Type} {a : α} {P : α → Prop} (h : P a) :
    Succ (pure a : M α) P := by
  intro o n r n2 t hh
  have h2 : ((Except.ok a, n, ([] : List Op)) : Except PyErr α × Nat × List Op)
      = (Except.ok r, n2, t) := hh
  simp only [Prod.mk.injEq, Except.ok.injEq] at h2
  obtain ⟨hr, -, -⟩ := h2
  subst hr
  exact h

theorem Succ.primM {α : Type} {op : Op} {v : α} {P : α → Prop} (h : P v) :
    Succ (prim op v) P := by
  intro o n r n2 t hh
  have h2 : (match o n with
    | some e => ((Except.error e.toPyErr : Except PyErr α), n + 1, [op])
    | none => (Except.ok v, n + 1, [op])) = (Except.ok r, n2, t) := hh
  split at h2
  case _ e heq => simp at h2
  case _ heq =>
    simp only [Prod.mk.injEq, Except.ok.injEq] at h2
    obtain ⟨hr, -, -⟩ := h2
    subst hr
    exact h

theorem Succ.liftEM {α : Type} {e : Except PyErr α} {P : α → Prop}
    (h : ∀ a, e = Except.ok a → P a) : Succ (liftE e) P := by
  intro o n r n2 t hh
  have h2 : ((e, n, ([] : List Op)) : Except PyErr α × Nat × List Op)
      = (Except.ok r, n2, t) := hh
  simp only [Prod.mk.injEq] at h2
  exact h r h2.1

theorem Succ.raiseEM {α : Type} {e : PyErr} {P : α → Prop} : Succ (raiseM e : M α) P := by
  intro o n r n2 t hh
  have h2 : ((Except.error e : Except PyErr α), n, ([] : List Op))
      = (Except.ok r, n2, t) := hh
  simp at h2

theorem Succ.tryRecoverM {m : M (Option Img)} {P : Option Img → Prop}
    (hm : Succ m P) (hnone : P none) : Succ (tryRecover m) P := by
  intro o n r n2 t hh
  have h2 : (match m o n with
    | (Except.ok a, n1, t1) => (Except.ok a, n1, t1)
    | (Except.error e, n1, t1) =>
      if catchable e then (Except.ok none, n1, t1) else (Except.error e, n1, t1))
      = (Except.ok r, n2, t) := hh
  split at h2
  case _ a n1 t1 heq1 =>
    simp only [Prod.mk.injEq, Except.ok.injEq] at h2
    obtain ⟨hr, -, -⟩ := h2
    subst hr
    exact hm o n _ n1 t1 heq1
  case _ e n1 t1 heq1 =>
    split at h2
    · simp only [Prod.mk.injEq, Except.ok.injEq] at h2
      obtain ⟨hr, -, -⟩ := h2
      subst hr
      exact hnone
    · simp at h2

theorem Succ.weakenM {α : Type} {m : M α} {P Q : α → Prop}
    (hm : Succ m P) (h : ∀ a, P a → Q a) : Succ m Q :=
  fun o n r n2 t hh => h r (hm o n r n2 t hh)

theorem Succ.topM {α : Type} (m : M α) : Succ m (fun _ => True) :=
  fun _ _ _ _ _ _ => trivial

theorem Clean.bindC {α β : Type} {m : M α} {f : α → M β} {P : α → Prop}
    (hm : Clean m) (hp : Succ m P) (hf : ∀ a, P a → Clean (f a)) :
    Clean (m >>= f) := by
  intro o n op hop
  have h2 : op ∈ ((match m o n with
    | (Except.ok a, n1, t1) =>
      match f a o n1 with
      | (r2, n3, t2) => (r2, n3, t1 ++ t2)
    | (Except.error e, n1, t1) =>
      ((Except.error e : Except PyErr β), n1, t1)) : Except PyErr β × Nat × List Op).2.2 := hop
  split at h2
  case _ a n1 t1 heq1 =>
    rcases hf2 : f a o n1 with ⟨r2, n3, t2⟩
    simp only [hf2] at h2
    rcases List.mem_append.mp h2 with h3 | h3
    · exact hm o n op (by rw [heq1]; exact h3)
    · exact hf a (hp o n a n1 t1 heq1) o n1 op (by rw [hf2]; exact h3)
  case _ e n1 t1 heq1 =>
    exact hm o n op (by rw [heq1]; exact h2)

theorem Clean.pureC {α : Type} (a : α) : Clean (pure a : M α) := by
  intro o n op hop
  have h2 : op ∈ (([] : List Op)) := hop
  simp at h2

theorem Clean.primC {α : Type} {op : Op} {v : α} (h : mutatesOriginal op = false) :
    Clean (prim op v) := by
  intro o n op2 hop
  have h2 : op2 ∈ ((match o n with
    | some e => ((Except.error e.toPyErr : Except PyErr α), n + 1, [op])
    | none => (Except.ok v, n + 1, [op])) : Except PyErr α × Nat × List Op).2.2 := hop
  split at h2
  case _ e heq =>
    simp only [List.mem_singleton] at h2
    subst h2
    exact h
  case _ heq =>
    simp only [List.mem_singleton] at h2
    subst h2
    exact h

theorem Clean.liftEC {α : Type} (e : Except PyErr α) : Clean (liftE e) := by
  intro o n op hop
  have h2 : op ∈ (([] : List Op)) := hop
  simp at h2

theorem Clean.raiseEC {α : Type} (e : PyErr) : Clean (raiseM e : M α) := by
  intro o n op hop
  have h2 : op ∈ (([] : List Op)) := hop
  simp at h2

theorem Clean.warnEC : Clean warnM := by
  intro o n op hop
  have h2 : op ∈ ([Op.warn]) := hop
  simp only [List.mem_singleton] at h2
  subst h2
  rfl

theorem Clean.tryRecoverC {m : M (Option Img)} (hm : Clean m) : Clean (tryRecover m) := by
  intro o n op hop
  have h2 : op ∈ ((match m o n with
    | (Except.ok a, n1, t1) => (Except.ok a, n1, t1)
    | (Except.error e, n1, t1) =>
      if catchable e then (Except.ok none, n1, t1) else (Except.error e, n1, t1))
      : Except PyErr (Option Img) × Nat × List Op).2.2 := hop
  split at h2
  case _ a n1 t1 heq1 => exact hm o n op (by rw [heq1]; exact h2)
  case _ e n1 t1 heq1 =>
    split at h2
    · exact hm o n op (by rw [heq1]; exact h2)
    · exact hm o n op (by rw [heq1]; exact h2)

theorem NoZ.bindZ {α β : Type} {m : M α} {f : α → M β} {P : α → Prop}
    (hm : NoZ m) (hp : Succ m P) (hf : ∀ a, P a → NoZ (f a)) : NoZ (m >>= f) := by
  intro o n h
  have h2 : ((match m o n with
    | (Except.ok a, n1, t1) =>
      match f a o n1 with
      | (r2, n3, t2) => (r2, n3, t1 ++ t2)
    | (Except.error e, n1, t1) =>
      ((Except.error e : Except PyErr β), n1, t1)) : Except PyErr β × Nat × List Op).1
      = Except.error PyErr.zeroDivisionError := h
  split at h2
  case _ a n1 t1 heq1 =>
    rcases hf2 : f a o n1 with ⟨r2, n3, t2⟩
    simp only [hf2] at h2
    exact hf a (hp o n a n1 t1 heq1) o n1 (by rw [hf2]; exact h2)
  case _ e n1 t1 heq1 =>
    simp only [Except.error.injEq] at h2
    subst h2
    exact hm o n (by rw [heq1])

theorem NoZ.pureZ {α : Type} (a : α) : NoZ (pure a : M α) := by
  intro o n h
  have h2 : (Except.ok a : Except PyErr α) = Except.error PyErr.zeroDivisionError := h
  simp at h2

theorem NoZ.primZ {α : Type} (op : Op) (v : α) : NoZ (prim op v) := by
  intro o n h
  have h2 : ((match o n with
    | some e => ((Except.error e.toPyErr : Except PyErr α), n + 1, [op])
    | none => (Except.ok v, n + 1, [op])) : Except PyErr α × Nat × List Op).1
      = Except.error PyErr.zeroDivisionError := h
  split at h2
  case _ e heq =>
    simp only [Except.error.injEq] at h2
    cases e <;> simp [PrimErr.toPyErr] at h2
  case _ heq => simp at h2

theorem NoZ.liftEZ {α : Type} {e : Except PyErr α}
    (h : e ≠ Except.error PyErr.zeroDivisionError) : NoZ (liftE e) := by
  intro o n hh
  exact h hh

theorem NoZ.raiseEZ {α : Type} {e : PyErr} (h : e ≠ PyErr.zeroDivisionError) :
    NoZ (raiseM e : M α) := by
  intro o n hh
  have h2 : (Except.error e : Except PyErr α) = Except.error PyErr.zeroDivisionError := hh
  simp only [Except.error.injEq] at h2
  exact h h2

theorem NoZ.warnEZ : NoZ warnM := by
  intro o n h
  have h2 : (Except.ok () : Except PyErr Unit) = Except.error PyErr.zeroDivisionError := h
  simp at h2

theorem NoZ.tryRecoverZ {m : M (Option Img)} (hm : NoZ m) : NoZ (tryRecover m) := by
  intro o n h
  have h2 : ((match m o n with
    | (Except.ok a, n1, t1) => (Except.ok a, n1, t1)
    | (Except.error e, n1, t1) =>
      if catchable e then (Except.ok none, n1, t1) else (Except.error e, n1, t1))
      : Except PyErr (Option Img) × Nat × List Op).1
      = Except.error PyErr.zeroDivisionError := h
  split at h2
  case _ a n1 t1 heq1 => simp at h2
  case _ e n1 t1 heq1 =>
    split at h2
    · simp at h2
    · simp only [Except.error.injEq] at h2
      subst h2
      exact hm o n (by rw [heq1])

theorem Succ.elim {α : Type} {m : M α} {P : α → Prop} (h : Succ m P) {o : Oracle}
    {n : Nat} {r : α} {n2 : Nat} {t : List Op}
    (heq : m o n = (Except.ok r, n2, t)) : P r := h o n r n2 t heq

theorem Clean.elimC {α : Type} {m : M α} (h : Clean m) {o : Oracle} {n : Nat}
    {op : Op} (hop : op ∈ (m o n).2.2) : mutatesOriginal op = false := h o n op hop

theorem NoZ.elimZ {α : Type} {m : M α} (h : NoZ m) (o : Oracle) (n : Nat) :
    (m o n).1 ≠ Except.error PyErr.zeroDivisionError := h o n

theorem Succ.intro {α : Type} {m : M α} {P : α → Prop}
    (h : ∀ o n r n2 t, m o n = (Except.ok r, n2, t) → P r) : Succ m P := h

theorem NoZ.introZ {α : Type} {m : M α}
    (h : ∀ o n, (m o n).1 ≠ Except.error PyErr.zeroDivisionError) : NoZ m := h

attribute [irreducible] Succ Clean NoZ

theorem resizeM_spec (image : Img) (w h : Nat) :
    Succ (resizeM image w h)
      (fun c => c.width = w ∧ c.height = h ∧ c.mode = image.mode ∧ c.orig = false) := by
  unfold resizeM
  exact Succ.primM ⟨rfl, rfl, rfl, rfl⟩

theorem cropM_spec (image : Img) (l t r b : Int) :
    Succ (cropM image l t r b)
      (fun c => c.width = (r - l).toNat ∧ c.height = (b - t).toNat ∧
        c.mode = image.mode ∧ c.orig = false) := by
  unfold cropM
  split
  · exact Succ.raiseEM
  · exact Succ.primM ⟨rfl, rfl, rfl, rfl⟩

theorem convertM_spec (image : Img) (m : Mode) :
    Succ (convertM image m)
      (fun c => c.width = image.width ∧ c.height = image.height ∧
        c.mode = m ∧ c.orig = false) := by
  unfold convertM
  exact Succ.primM ⟨rfl, rfl, rfl, rfl⟩

theorem copyM_spec (image : Img) :
    Succ (copyM image)
      (fun c => c.width = image.width ∧ c.height = image.height ∧
        c.mode = image.mode ∧ c.orig = false) := by
  unfold copyM
  exact Succ.primM ⟨rfl, rfl, rfl, rfl⟩

theorem autocontrastM_spec (image : Img) :
    Succ (autocontrastM image)
      (fun c => c.width = image.width ∧ c.height = image.height ∧
        c.mode = image.mode ∧ c.orig = false) := by
  unfold autocontrastM
  exact Succ.primM ⟨rfl, rfl, rfl, rfl⟩

theorem expandM_spec (image : Img) (border : Int) :
    Succ (expandM image border)
      (fun c => c.width = ((image.width : Int) + 2 * border).toNat ∧
        c.height = ((image.height : Int) + 2 * border).toNat ∧
        c.mode = image.mode ∧ c.orig = false) := by
  unfold expandM
  exact Succ.primM ⟨rfl, rfl, rfl, rfl⟩

theorem blurM_spec (image : Img) (radius : Int) :
    Succ (blurM image radius)
      (fun c => c.width = image.width ∧ c.height = image.height ∧
        c.mode = image.mode ∧ c.orig = false) := by
  unfold blurM
  split
  · exact Succ.raiseEM
  · exact Succ.primM ⟨rfl, rfl, rfl, rfl⟩

theorem newM_spec (w h : Nat) :
    Succ (newM w h)
      (fun c => c.width = w ∧ c.height = h ∧ c.mode = Mode.RGB ∧ c.orig = false) := by
  unfold newM
  exact Succ.primM ⟨rfl, rfl, rfl, rfl⟩

theorem thumbnailM_spec (image : Img) (x y : Nat) :
    Succ (thumbnailM image x y)
      (fun c => c.mode = image.mode ∧ c.orig = image.orig) := by
  unfold thumbnailM
  apply Succ.bindM (P := fun (_ : Nat × Nat) => True)
  · exact Succ.topM _
  · intro s _
    exact Succ.primM ⟨rfl, rfl⟩

theorem pasteM_spec (background foreground : Img) (x y : Int) (mask : Bool) :
    Succ (pasteM background foreground x y mask) (fun c => c = background) := by
  unfold pasteM
  exact Succ.primM rfl

theorem convert_image_mode_spec (I : Imager) (img : Img) :
    Succ (I.convert_image_mode img)
      (fun c => c.width = img.width ∧ c.height = img.height ∧
        ((img.mode = Mode.P ∨ img.mode = Mode.RGBA ∨ img.mode = Mode.RGB) →
          c.mode = Mode.RGB)) := by
  unfold Imager.convert_image_mode
  apply Succ.bindM (P := fun c => c.width = img.width ∧ c.height = img.height ∧
    ((img.mode = Mode.P ∨ img.mode = Mode.RGBA ∨ img.mode = Mode.RGB) →
      (c.mode = Mode.RGBA ∨ c.mode = Mode.RGB)))
  · split
    · apply Succ.weakenM (convertM_spec img Mode.RGBA)
      intro c hc
      exact ⟨hc.1, hc.2.1, fun _ => Or.inl hc.2.2.1⟩
    · next hne =>
      apply Succ.pureM
      refine ⟨rfl, rfl, fun h => ?_⟩
      rcases h with h | h | h
      · exact absurd h hne
      · exact Or.inl h
      · exact Or.inr h
  · intro c hc
    apply Succ.bindM (P := fun d => d.width = img.width ∧ d.height = img.height ∧
      ((img.mode = Mode.P ∨ img.mode = Mode.RGBA ∨ img.mode = Mode.RGB) →
        d.mode = Mode.RGB))
    · split
      · apply Succ.weakenM (convertM_spec c Mode.RGB)
        intro d hd
        exact ⟨hd.1.trans hc.1, hd.2.1.trans hc.2.1, fun _ => hd.2.2.1⟩
      · next hne =>
        apply Succ.pureM
        refine ⟨hc.1, hc.2.1, fun h => ?_⟩
        rcases hc.2.2 h with h2 | h2
        · exact absurd h2 hne
        · exact h2
    · intro d hd
      exact Succ.pureM hd

theorem fit_portrait_to_landscape_spec (I : Imager) (img : Img) :
    Succ (I.fit_portrait_to_landscape img)
      (fun r => r.width = I.output_width ∧ r.height = I.output_height ∧
        r.mode = img.mode ∧ r.orig = false) := by
  unfold Imager.fit_portrait_to_landscape
  apply Succ.bindM (P := fun (_ : Nat) => True)
  · exact Succ.topM _
  · intro ph _
    apply Succ.bindM (P := fun c => c.mode = img.mode)
    · exact Succ.weakenM (resizeM_spec img _ _) (fun c hc => hc.2.2.1)
    · intro resized hres
      apply Succ.weakenM (cropM_spec resized _ _ _ _)
      intro c hc
      refine ⟨?_, ?_, hc.2.2.1.trans hres, hc.2.2.2⟩
      · rw [hc.1]; omega
      · rw [hc.2.1]; omega

theorem fit_landscape_to_portrait_spec (I : Imager) (img : Img) :
    Succ (I.fit_landscape_to_portrait img)
      (fun r => r.width = I.output_width ∧ r.height = I.output_height ∧
        r.mode = img.mode ∧ r.orig = false) := by
  unfold Imager.fit_landscape_to_portrait
  apply Succ.bindM (P := fun (_ : Nat) => True)
  · exact Succ.topM _
  · intro pw _
    apply Succ.bindM (P := fun c => c.mode = img.mode)
    · exact Succ.weakenM (resizeM_spec img _ _) (fun c hc => hc.2.2.1)
    · intro resized hres
      apply Succ.weakenM (cropM_spec resized _ _ _ _)
      intro c hc
      refine ⟨?_, ?_, hc.2.2.1.trans hres, hc.2.2.2⟩
      · rw [hc.1]; omega
      · rw [hc.2.1]; omega

theorem resize_proportionally_spec (I : Imager) (img : Img) :
    Succ (I.resize_proportionally img) (fun r => r.mode = img.mode ∧ r.orig = false) := by
  unfold Imager.resize_proportionally
  split
  · apply Succ.bindM (P := fun (_ : Nat) => True)
    · exact Succ.topM _
    · intro ph _
      exact Succ.weakenM (resizeM_spec img _ _) (fun c hc => ⟨hc.2.2.1, hc.2.2.2⟩)
  · apply Succ.bindM (P := fun (_ : Nat) => True)
    · exact Succ.topM _
    · intro pw _
      exact Succ.weakenM (resizeM_spec img _ _) (fun c hc => ⟨hc.2.2.1, hc.2.2.2⟩)

theorem fit_wide_to_landscape_spec (I : Imager) (img : Img) :
    Succ (I.fit_wide_to_landscape img)
      (fun r => r.mode = img.mode ∧ r.orig = false ∧
        (I.config.force_fit = true →
          r.width = I.output_width ∧ r.height = I.output_height)) := by
  unfold Imager.fit_wide_to_landscape
  split
  · apply Succ.bindM (P := fun (_ : Nat) => True)
    · exact Succ.topM _
    · intro pw _
      apply Succ.bindM (P := fun c => c.mode = img.mode)
      · exact Succ.weakenM (resizeM_spec img _ _) (fun c hc => hc.2.2.1)
      · intro resized hres
        apply Succ.weakenM (cropM_spec resized _ _ _ _)
        intro c hc
        refine ⟨hc.2.2.1.trans hres, hc.2.2.2, fun _ => ⟨?_, ?_⟩⟩
        · rw [hc.1]; omega
        · rw [hc.2.1]; omega
  · next hff =>
    apply Succ.weakenM (resize_proportionally_spec I img)
    intro c hc
    exact ⟨hc.1, hc.2, fun h => absurd h hff⟩

theorem fit_tall_to_portrait_spec (I : Imager) (img : Img) :
    Succ (I.fit_tall_to_portrait img)
      (fun r => r.mode = img.mode ∧ r.orig = false ∧
        (I.config.force_fit = true →
          r.width = I.output_width ∧ r.height = I.output_height)) := by
  unfold Imager.fit_tall_to_portrait
  split
  · apply Succ.bindM (P := fun (_ : Nat) => True)
    · exact Succ.topM _
    · intro ph _
      apply Succ.bindM (P := fun c => c.mode = img.mode)
      · exact Succ.weakenM (resizeM_spec img _ _) (fun c hc => hc.2.2.1)
      · intro resized hres
        apply Succ.weakenM (cropM_spec resized _ _ _ _)
        intro c hc
        refine ⟨hc.2.2.1.trans hres, hc.2.2.2, fun _ => ⟨?_, ?_⟩⟩
        · rw [hc.1]; omega
        · rw [hc.2.1]; omega
  · next hff =>
    apply Succ.weakenM (resize_proportionally_spec I img)
    intro c hc
    exact ⟨hc.1, hc.2, fun h => absurd h hff⟩

theorem crop_image_and_ensure_size_spec (I : Imager) (canvas : Img)
    (crop_box : Int × Int × Int × Int) :
    Succ (I.crop_image_and_ensure_size canvas crop_box)
      (fun r => r.width = I.output_width ∧ r.height = I.output_height ∧
        r.mode = canvas.mode ∧ r.orig = false) := by
  unfold Imager.crop_image_and_ensure_size
  apply Succ.bindM (P := fun c => c.mode = canvas.mode ∧ c.orig = false)
  · exact Succ.weakenM (cropM_spec canvas _ _ _ _) (fun c hc => ⟨hc.2.2.1, hc.2.2.2⟩)
  · intro background hbg
    split
    · apply Succ.weakenM (resizeM_spec background _ _)
      intro c hc
      exact ⟨hc.1, hc.2.1, hc.2.2.1.trans hbg.1, hc.2.2.2⟩
    · next hne =>
      apply Succ.pureM
      have h2 : (background.width, background.height) = (I.output_width, I.output_height) := by
        by_contra hcon
        exact hne hcon
      simp only [Prod.mk.injEq] at h2
      exact ⟨h2.1, h2.2, hbg.1, hbg.2⟩

theorem resize_image_for_background_spec (I : Imager) (image : Img) :
    Succ (I.resize_image_for_background image)
      (fun r => (image.mode = Mode.RGB → r.mode = Mode.RGB) ∧ r.orig = false) := by
  unfold Imager.resize_image_for_background
  apply Succ.bindM (P := fun (_ : Nat × Nat) => True)
  · exact Succ.topM _
  · intro cd _
    split
    · apply Succ.bindM (P := fun (_ : Unit) => True)
      · exact Succ.topM _
      · intro u _
        exact Succ.weakenM (newM_spec _ _) (fun c hc => ⟨fun _ => hc.2.2.1, hc.2.2.2⟩)
    · exact Succ.weakenM (resizeM_spec image _ _)
        (fun c hc => ⟨fun h => hc.2.2.1.trans h, hc.2.2.2⟩)

theorem create_background_image_spec (I : Imager) (image : Img) :
    Succ (I.create_background_image image)
      (fun r => r.width = I.output_width ∧ r.height = I.output_height ∧
        (image.mode = Mode.RGB → r.mode = Mode.RGB) ∧ r.orig = false) := by
  unfold Imager.create_background_image
  apply Succ.bindM (P := fun c => c.mode = image.mode)
  · exact Succ.weakenM (copyM_spec image) (fun c hc => hc.2.2.1)
  · intro image_copy hcopy
    apply Succ.bindM (P := fun c =>
      (image.mode = Mode.RGB → c.mode = Mode.RGB) ∧ c.orig = false)
    · apply Succ.weakenM (resize_image_for_background_spec I image_copy)
      intro c hc
      exact ⟨fun h => hc.1 (hcopy.trans h), hc.2⟩
    · intro canvas hcanvas
      apply Succ.bindM (P := fun c => c.width = I.output_width ∧
        c.height = I.output_height ∧ c.mode = canvas.mode ∧ c.orig = false)
      · exact crop_image_and_ensure_size_spec I canvas _
      · intro background hbg
        split
        · apply Succ.weakenM (blurM_spec background _)
          intro c hc
          exact ⟨hc.1.trans hbg.1, hc.2.1.trans hbg.2.1,
            fun h => hc.2.2.1.trans (hbg.2.2.1.trans (hcanvas.1 h)), hc.2.2.2⟩
        · apply Succ.pureM
          exact ⟨hbg.1, hbg.2.1, fun h => hbg.2.2.1.trans (hcanvas.1 h), hbg.2.2.2⟩

theorem create_combo_spec (I : Imager) (image : Img) :
    Succ (I.create_combo image)
      (fun res => ∀ r, res = some r →
        r.width = I.output_width ∧ r.height = I.output_height ∧
        (image.mode = Mode.RGB → r.mode = Mode.RGB)) := by
  unfold Imager.create_combo
  apply Succ.tryRecoverM
  · apply Succ.bindM (P := fun (_ : Img) => True)
    · exact Succ.topM _
    · intro foreground _
      apply Succ.bindM (P := fun bg => bg.width = I.output_width ∧
        bg.height = I.output_height ∧ (image.mode = Mode.RGB → bg.mode = Mode.RGB))
      · exact Succ.weakenM (create_background_image_spec I image)
          (fun c hc => ⟨hc.1, hc.2.1, hc.2.2.1⟩)
      · intro background hbg
        apply Succ.bindM (P := fun c => c = background)
        · split
          · exact pasteM_spec background foreground _ _ _
          · exact pasteM_spec background foreground _ _ _
        · intro composed hcomp
          apply Succ.pureM
          intro r hr
          simp only [Option.some.injEq] at hr
          subst hr
          rw [hcomp]
          exact hbg
  · intro r hr
    simp at hr

theorem handle_landscape_template_spec (I : Imager) (image : Img) :
    Succ (I.handle_landscape_template image)
      (fun res => ∀ r, res = some r →
        (image.mode = Mode.RGB → r.mode = Mode.RGB) ∧
        (I.config.force_fit = true →
          r.width = I.output_width ∧ r.height = I.output_height)) := by
  unfold Imager.handle_landscape_template
  apply Succ.bindM (P := fun (_ : Bool) => True)
  · exact Succ.topM _
  · intro cond _
    split
    · split
      · apply Succ.bindM (P := fun c => c.width = I.output_width ∧
          c.height = I.output_height ∧ c.mode = image.mode)
        · exact Succ.weakenM (fit_portrait_to_landscape_spec I image)
            (fun c hc => ⟨hc.1, hc.2.1, hc.2.2.1⟩)
        · intro r1 hr1
          apply Succ.pureM
          intro r hr
          simp only [Option.some.injEq] at hr
          subst hr
          exact ⟨fun h => hr1.2.2.trans h, fun _ => ⟨hr1.1, hr1.2.1⟩⟩
      · apply Succ.weakenM (create_combo_spec I image)
        intro res hres r hr
        obtain ⟨h1, h2, h3⟩ := hres r hr
        exact ⟨h3, fun _ => ⟨h1, h2⟩⟩
    · apply Succ.bindM (P := fun c => c.mode = image.mode ∧
        (I.config.force_fit = true → c.width = I.output_width ∧ c.height = I.output_height))
      · exact Succ.weakenM (fit_wide_to_landscape_spec I image) (fun c hc => ⟨hc.1, hc.2.2⟩)
      · intro r1 hr1
        apply Succ.pureM
        intro r hr
        simp only [Option.some.injEq] at hr
        subst hr
        exact ⟨fun h => hr1.1.trans h, hr1.2⟩

theorem handle_portrait_template_spec (I : Imager) (image : Img) :
    Succ (I.handle_portrait_template image)
      (fun res => ∀ r, res = some r →
        (image.mode = Mode.RGB → r.mode = Mode.RGB) ∧
        (I.config.force_fit = true →
          r.width = I.output_width ∧ r.height = I.output_height)) := by
  unfold Imager.handle_portrait_template
  apply Succ.bindM (P := fun (_ : Bool) => True)
  · exact Succ.topM _
  · intro cond _
    split
    · split
      · apply Succ.bindM (P := fun c => c.width = I.output_width ∧
          c.height = I.output_height ∧ c.mode = image.mode)
        · exact Succ.weakenM (fit_landscape_to_portrait_spec I image)
            (fun c hc => ⟨hc.1, hc.2.1, hc.2.2.1⟩)
        · intro r1 hr1
          apply Succ.pureM
          intro r hr
          simp only [Option.some.injEq] at hr
          subst hr
          exact ⟨fun h => hr1.2.2.trans h, fun _ => ⟨hr1.1, hr1.2.1⟩⟩
      · apply Succ.weakenM (create_combo_spec I image)
        intro res hres r hr
        obtain ⟨h1, h2, h3⟩ := hres r hr
        exact ⟨h3, fun _ => ⟨h1, h2⟩⟩
    · apply Succ.bindM (P := fun c => c.mode = image.mode ∧
        (I.config.force_fit = true → c.width = I.output_width ∧ c.height = I.output_height))
      · exact Succ.weakenM (fit_tall_to_portrait_spec I image) (fun c hc => ⟨hc.1, hc.2.2⟩)
      · intro r1 hr1
        apply Succ.pureM
        intro r hr
        simp only [Option.some.injEq] at hr
        subst hr
        exact ⟨fun h => hr1.1.trans h, hr1.2⟩

theorem resize_to_template_spec (I : Imager) (img : Img) :
    Succ (I.resize_to_template img)
      (fun res => ∀ r, res = some r →
        ((img.mode = Mode.P ∨ img.mode = Mode.RGBA ∨ img.mode = Mode.RGB) →
          r.mode = Mode.RGB) ∧
        (I.config.force_fit = true →
          r.width = I.output_width ∧ r.height = I.output_height)) := by
  unfold Imager.resize_to_template
  apply Succ.tryRecoverM
  · apply Succ.bindM (P := fun c =>
      (img.mode = Mode.P ∨ img.mode = Mode.RGBA ∨ img.mode = Mode.RGB) → c.mode = Mode.RGB)
    · exact Succ.weakenM (convert_image_mode_spec I img) (fun c hc => hc.2.2)
    · intro c hc
      split
      · apply Succ.weakenM (create_combo_spec I c)
        intro res hres r hr
        obtain ⟨h1, h2, h3⟩ := hres r hr
        exact ⟨fun hm => h3 (hc hm), fun _ => ⟨h1, h2⟩⟩
      · split
        · apply Succ.weakenM (handle_landscape_template_spec I c)
          intro res hres r hr
          obtain ⟨h1, h2⟩ := hres r hr
          exact ⟨fun hm => h1 (hc hm), h2⟩
        · apply Succ.weakenM (handle_portrait_template_spec I c)
          intro res hres r hr
          obtain ⟨h1, h2⟩ := hres r hr
          exact ⟨fun hm => h1 (hc hm), h2⟩
  · intro r hr
    simp at hr

theorem resizeM_clean (image : Img) (w h : Nat) : Clean (resizeM image w h) := by
  unfold resizeM
  exact Clean.primC rfl

theorem cropM_clean (image : Img) (l t r b : Int) : Clean (cropM image l t r b) := by
  unfold cropM
  split
  · exact Clean.raiseEC _
  · exact Clean.primC rfl

theorem convertM_clean (image : Img) (m : Mode) : Clean (convertM image m) := by
  unfold convertM
  exact Clean.primC rfl

theorem copyM_clean (image : Img) : Clean (copyM image) := by
  unfold copyM
  exact Clean.primC rfl

theorem autocontrastM_clean (image : Img) : Clean (autocontrastM image) := by
  unfold autocontrastM
  exact Clean.primC rfl

theorem expandM_clean (image : Img) (border : Int) : Clean (expandM image border) := by
  unfold expandM
  exact Clean.primC rfl

theorem blurM_clean (image : Img) (radius : Int) : Clean (blurM image radius) := by
  unfold blurM
  split
  · exact Clean.raiseEC _
  · exact Clean.primC rfl

theorem newM_clean (w h : Nat) : Clean (newM w h) := by
  unfold newM
  exact Clean.primC rfl

theorem thumbnailM_clean (image : Img) (x y : Nat) (h : image.orig = false) :
    Clean (thumbnailM image x y) := by
  unfold thumbnailM
  apply Clean.bindC (P := fun (_ : Nat × Nat) => True)
  · exact Clean.liftEC _
  · exact Succ.topM _
  · intro s _
    apply Clean.primC
    simp [mutatesOriginal, h]

theorem pasteM_clean (background foreground : Img) (x y : Int) (mask : Bool)
    (h : background.orig = false) :
    Clean (pasteM background foreground x y mask) := by
  unfold pasteM
  apply Clean.primC
  simp [mutatesOriginal, h]

theorem scale_up_image_clean (I : Imager) (image : Img) (max_w max_h : Nat) :
    Clean (I.scale_up_image image max_w max_h) := by
  simp only [Imager.scale_up_image]
  apply Clean.bindC (P := fun (_ : Frac) => True)
  · exact Clean.liftEC _
  · exact Succ.topM _
  · intro rw1 _
    apply Clean.bindC (P := fun (_ : Frac) => True)
    · exact Clean.liftEC _
    · exact Succ.topM _
    · intro rh1 _
      split
      · exact resizeM_clean image _ _
      · exact Clean.pureC image

theorem resize_foreground_clean (I : Imager) (image : Img) (h : image.orig = false) :
    Clean (I.resize_foreground image) := by
  simp only [Imager.resize_foreground]
  split
  · exact scale_up_image_clean I image _ _
  · exact thumbnailM_clean image _ _ h

theorem convert_image_for_border_clean (I : Imager) (image : Img) (htb : Bool) :
    Clean (I.convert_image_for_border image htb) := by
  unfold Imager.convert_image_for_border
  split
  · split
    · exact convertM_clean image _
    · exact Clean.pureC image
  · split
    · exact convertM_clean image _
    · exact Clean.pureC image

theorem calculate_safe_border_width_clean (I : Imager) (image : Img) :
    Clean (I.calculate_safe_border_width image) := by
  simp only [Imager.calculate_safe_border_width]
  split
  · apply Clean.bindC (P := fun (_ : Unit) => True)
    · exact Clean.warnEC
    · exact Succ.topM _
    · intro u _
      exact Clean.pureC _
  · exact Clean.pureC _

theorem apply_border_clean (I : Imager) (image : Img) : Clean (I.apply_border image) := by
  simp only [Imager.apply_border]
  split
  · exact Clean.pureC image
  · apply Clean.bindC (P := fun (_ : Img) => True)
    · exact convert_image_for_border_clean I image _
    · exact Succ.topM _
    · intro image2 _
      apply Clean.bindC (P := fun (_ : Int) => True)
      · exact calculate_safe_border_width_clean I image2
      · exact Succ.topM _
      · intro bw _
        split
        · exact expandM_clean image2 bw
        · exact Clean.pureC image2

theorem create_foreground_image_clean (I : Imager) (image : Img) :
    Clean (I.create_foreground_image image) := by
  unfold Imager.create_foreground_image
  apply Clean.bindC (P := fun c => c.orig = false)
  · exact copyM_clean image
  · exact Succ.weakenM (copyM_spec image) (fun c hc => hc.2.2.2)
  · intro fg1 hfg1
    apply Clean.bindC (P := fun (_ : Img) => True)
    · exact resize_foreground_clean I fg1 hfg1
    · exact Succ.topM _
    · intro fg2 _
      apply Clean.bindC (P := fun (_ : Img) => True)
      · exact autocontrastM_clean fg2
      · exact Succ.topM _
      · intro fg3 _
        apply Clean.bindC (P := fun (_ : Img) => True)
        · exact apply_border_clean I fg3
        · exact Succ.topM _
        · intro fg4 _
          exact Clean.pureC fg4

theorem resize_image_for_background_clean (I : Imager) (image : Img) :
    Clean (I.resize_image_for_background image) := by
  unfold Imager.resize_image_for_background
  apply Clean.bindC (P := fun (_ : Nat × Nat) => True)
  · exact Clean.liftEC _
  · exact Succ.topM _
  · intro cd _
    split
    · apply Clean.bindC (P := fun (_ : Unit) => True)
      · exact Clean.warnEC
      · exact Succ.topM _
      · intro u _
        exact newM_clean _ _
    · exact resizeM_clean image _ _

theorem crop_image_and_ensure_size_clean (I : Imager) (canvas : Img)
    (crop_box : Int × Int × Int × Int) :
    Clean (I.crop_image_and_ensure_size canvas crop_box) := by
  unfold Imager.crop_image_and_ensure_size
  apply Clean.bindC (P := fun (_ : Img) => True)
  · exact cropM_clean canvas _ _ _ _
  · exact Succ.topM _
  · intro background _
    split
    · exact resizeM_clean background _ _
    · exact Clean.pureC background

theorem create_background_image_clean (I : Imager) (image : Img) :
    Clean (I.create_background_image image) := by
  unfold Imager.create_background_image
  apply Clean.bindC (P := fun (_ : Img) => True)
  · exact copyM_clean image
  · exact Succ.topM _
  · intro image_copy _
    apply Clean.bindC (P := fun (_ : Img) => True)
    · exact resize_image_for_background_clean I image_copy
    · exact Succ.topM _
    · intro canvas _
      apply Clean.bindC (P := fun (_ : Img) => True)
      · exact crop_image_and_ensure_size_clean I canvas _
      · exact Succ.topM _
      · intro background _
        split
        · exact blurM_clean background _
        · exact Clean.pureC background

theorem create_combo_clean (I : Imager) (image : Img) : Clean (I.create_combo image) := by
  unfold Imager.create_combo
  apply Clean.tryRecoverC
  apply Clean.bindC (P := fun (_ : Img) => True)
  · exact create_foreground_image_clean I image
  · exact Succ.topM _
  · intro foreground _
    apply Clean.bindC (P := fun bg => bg.orig = false)
    · exact create_background_image_clean I image
    · exact Succ.weakenM (create_background_image_spec I image) (fun c hc => hc.2.2.2)
    · intro background hbg
      apply Clean.bindC (P := fun (_ : Img) => True)
      · split
        · exact pasteM_clean background foreground _ _ _ hbg
        · exact pasteM_clean background foreground _ _ _ hbg
      · exact Succ.topM _
      · intro composed _
        exact Clean.pureC _

theorem convert_image_mode_clean (I : Imager) (image : Img) :
    Clean (I.convert_image_mode image) := by
  unfold Imager.convert_image_mode
  apply Clean.bindC (P := fun (_ : Img) => True)
  · split
    · exact convertM_clean image _
    · exact Clean.pureC image
  · exact Succ.topM _
  · intro c _
    apply Clean.bindC (P := fun (_ : Img) => True)
    · split
      · exact convertM_clean c _
      · exact Clean.pureC c
    · exact Succ.topM _
    · intro d _
      exact Clean.pureC d

theorem fit_portrait_to_landscape_clean (I : Imager) (image : Img) :
    Clean (I.fit_portrait_to_landscape image) := by
  unfold Imager.fit_portrait_to_landscape
  apply Clean.bindC (P := fun (_ : Nat) => True)
  · exact Clean.liftEC _
  · exact Succ.topM _
  · intro ph _
    apply Clean.bindC (P := fun (_ : Img) => True)
    · exact resizeM_clean image _ _
    · exact Succ.topM _
    · intro resized _
      exact cropM_clean resized _ _ _ _

theorem fit_landscape_to_portrait_clean (I : Imager) (image : Img) :
    Clean (I.fit_landscape_to_portrait image) := by
  unfold Imager.fit_landscape_to_portrait
  apply Clean.bindC (P := fun (_ : Nat) => True)
  · exact Clean.liftEC _
  · exact Succ.topM _
  · intro pw _
    apply Clean.bindC (P := fun (_ : Img) => True)
    · exact resizeM_clean image _ _
    · exact Succ.topM _
    · intro resized _
      exact cropM_clean resized _ _ _ _

theorem resize_proportionally_clean (I : Imager) (image : Img) :
    Clean (I.resize_proportionally image) := by
  unfold Imager.resize_proportionally
  split
  · apply Clean.bindC (P := fun (_ : Nat) => True)
    · exact Clean.liftEC _
    · exact Succ.topM _
    · intro ph _
      exact resizeM_clean image _ _
  · apply Clean.bindC (P := fun (_ : Nat) => True)
    · exact Clean.liftEC _
    · exact Succ.topM _
    · intro pw _
      exact resizeM_clean image _ _

theorem fit_wide_to_landscape_clean (I : Imager) (image : Img) :
    Clean (I.fit_wide_to_landscape image) := by
  unfold Imager.fit_wide_to_landscape
  split
  · apply Clean.bindC (P := fun (_ : Nat) => True)
    · exact Clean.liftEC _
    · exact Succ.topM _
    · intro pw _
      apply Clean.bindC (P := fun (_ : Img) => True)
      · exact resizeM_clean image _ _
      · exact Succ.topM _
      · intro resized _
        exact cropM_clean resized _ _ _ _
  · exact resize_proportionally_clean I image

theorem fit_tall_to_portrait_clean (I : Imager) (image : Img) :
    Clean (I.fit_tall_to_portrait image) := by
  unfold Imager.fit_tall_to_portrait
  split
  · apply Clean.bindC (P := fun (_ : Nat) => True)
    · exact Clean.liftEC _
    · exact Succ.topM _
    · intro ph _
      apply Clean.bindC (P := fun (_ : Img) => True)
      · exact resizeM_clean image _ _
      · exact Succ.topM _
      · intro resized _
        exact cropM_clean resized _ _ _ _
  · exact resize_proportionally_clean I image

theorem handle_landscape_template_clean (I : Imager) (image : Img) :
    Clean (I.handle_landscape_template image) := by
  unfold Imager.handle_landscape_template
  apply Clean.bindC (P := fun (_ : Bool) => True)
  · split
    · exact Clean.pureC true
    · exact Clean.liftEC _
  · exact Succ.topM _
  · intro cond _
    split
    · split
      · apply Clean.bindC (P := fun (_ : Img) => True)
        · exact fit_portrait_to_landscape_clean I image
        · exact Succ.topM _
        · intro r _
          exact Clean.pureC _
      · exact create_combo_clean I image
    · apply Clean.bindC (P := fun (_ : Img) => True)
      · exact fit_wide_to_landscape_clean I image
      · exact Succ.topM _
      · intro r _
        exact Clean.pureC _

theorem handle_portrait_template_clean (I : Imager) (image : Img) :
    Clean (I.handle_portrait_template image) := by
  unfold Imager.handle_portrait_template
  apply Clean.bindC (P := fun (_ : Bool) => True)
  · split
    · exact Clean.pureC true
    · exact Clean.liftEC _
  · exact Succ.topM _
  · intro cond _
    split
    · split
      · apply Clean.bindC (P := fun (_ : Img) => True)
        · exact fit_landscape_to_portrait_clean I image
        · exact Succ.topM _
        · intro r _
          exact Clean.pureC _
      · exact create_combo_clean I image
    · apply Clean.bindC (P := fun (_ : Img) => True)
      · exact fit_tall_to_portrait_clean I image
      · exact Succ.topM _
      · intro r _
        exact Clean.pureC _

theorem resize_to_template_clean (I : Imager) (image : Img) :
    Clean (I.resize_to_template image) := by
  unfold Imager.resize_to_template
  apply Clean.tryRecoverC
  apply Clean.bindC (P := fun (_ : Img) => True)
  · exact convert_image_mode_clean I image
  · exact Succ.topM _
  · intro c _
    split
    · exact create_combo_clean I c
    · split
      · exact handle_landscape_template_clean I c
      · exact handle_portrait_template_clean I c

theorem exc_bind_ok {α β : Type} (a : α) (f : α → Except PyErr β) :
    (Except.ok a >>= f) = f a := rfl

theorem intScale_ne (a b c : Nat) (h : c ≠ 0) :
    intScale a b c ≠ Except.error PyErr.zeroDivisionError := by
  unfold intScale
  rw [if_neg h]
  simp

theorem fracDiv_ne (a b : Nat) (h : b ≠ 0) :
    fracDiv a b ≠ Except.error PyErr.zeroDivisionError := by
  unfold fracDiv
  rw [if_neg h]
  simp

theorem ratioLt_ne (a b c d : Nat) (hb : b ≠ 0) (hd : d ≠ 0) :
    ratioLt a b c d ≠ Except.error PyErr.zeroDivisionError := by
  unfold ratioLt
  rw [if_neg hb, if_neg hd]
  simp

theorem ratioGt_ne (a b c d : Nat) (hb : b ≠ 0) (hd : d ≠ 0) :
    ratioGt a b c d ≠ Except.error PyErr.zeroDivisionError := by
  unfold ratioGt
  rw [if_neg hb, if_neg hd]
  simp

theorem thumbFitSize_ne (w h x y : Nat) (hh : h ≠ 0) (hy : y ≠ 0) :
    thumbFitSize w h x y ≠ Except.error PyErr.zeroDivisionError := by
  unfold thumbFitSize
  by_cases h1 : x ≥ w ∧ y ≥ h
  · rw [if_pos h1]
    simp
  · rw [if_neg h1, if_neg hh, if_neg hy]
    by_cases h2 : w * y ≤ x * h
    · rw [if_pos h2]
      simp
    · rw [if_neg h2]
      simp

theorem resizeM_noz (image : Img) (w h : Nat) : NoZ (resizeM image w h) := by
  unfold resizeM
  exact NoZ.primZ _ _

theorem cropM_noz (image : Img) (l t r b : Int) : NoZ (cropM image l t r b) := by
  unfold cropM
  split
  · exact NoZ.raiseEZ (by simp)
  · exact NoZ.primZ _ _

theorem convertM_noz (image : Img) (m : Mode) : NoZ (convertM image m) := by
  unfold convertM
  exact NoZ.primZ _ _

theorem copyM_noz (image : Img) : NoZ (copyM image) := by
  unfold copyM
  exact NoZ.primZ _ _

theorem autocontrastM_noz (image : Img) : NoZ (autocontrastM image) := by
  unfold autocontrastM
  exact NoZ.primZ _ _

theorem expandM_noz (image : Img) (border : Int) : NoZ (expandM image border) := by
  unfold expandM
  exact NoZ.primZ _ _

theorem blurM_noz (image : Img) (radius : Int) : NoZ (blurM image radius) := by
  unfold blurM
  split
  · exact NoZ.raiseEZ (by simp)
  · exact NoZ.primZ _ _

theorem newM_noz (w h : Nat) : NoZ (newM w h) := by
  unfold newM
  exact NoZ.primZ _ _

theorem thumbnailM_noz (image : Img) (x y : Nat) (hh : image.height ≠ 0) (hy : y ≠ 0) :
    NoZ (thumbnailM image x y) := by
  unfold thumbnailM
  apply NoZ.bindZ (P := fun (_ : Nat × Nat) => True)
  · exact NoZ.liftEZ (thumbFitSize_ne _ _ _ _ hh hy)
  · exact Succ.topM _
  · intro s _
    exact NoZ.primZ _ _

theorem pasteM_noz (background foreground : Img) (x y : Int) (mask : Bool) :
    NoZ (pasteM background foreground x y mask) := by
  unfold pasteM
  exact NoZ.primZ _ _

theorem warnM_noz : NoZ warnM := NoZ.warnEZ

theorem convert_image_mode_noz (I : Imager) (image : Img) :
    NoZ (I.convert_image_mode image) := by
  unfold Imager.convert_image_mode
  apply NoZ.bindZ (P := fun (_ : Img) => True)
  · split
    · exact convertM_noz image _
    · exact NoZ.pureZ image
  · exact Succ.topM _
  · intro c _
    apply NoZ.bindZ (P := fun (_ : Img) => True)
    · split
      · exact convertM_noz c _
      · exact NoZ.pureZ c
    · exact Succ.topM _
    · intro d _
      exact NoZ.pureZ d

theorem fit_portrait_to_landscape_noz (I : Imager) (image : Img)
    (hw : image.width ≠ 0) : NoZ (I.fit_portrait_to_landscape image) := by
  unfold Imager.fit_portrait_to_landscape
  apply NoZ.bindZ (P := fun (_ : Nat) => True)
  · exact NoZ.liftEZ (intScale_ne _ _ _ hw)
  · exact Succ.topM _
  · intro ph _
    apply NoZ.bindZ (P := fun (_ : Img) => True)
    · exact resizeM_noz image _ _
    · exact Succ.topM _
    · intro resized _
      exact cropM_noz resized _ _ _ _

theorem fit_landscape_to_portrait_noz (I : Imager) (image : Img)
    (hh : image.height ≠ 0) : NoZ (I.fit_landscape_to_portrait image) := by
  unfold Imager.fit_landscape_to_portrait
  apply NoZ.bindZ (P := fun (_ : Nat) => True)
  · exact NoZ.liftEZ (intScale_ne _ _ _ hh)
  · exact Succ.topM _
  · intro pw _
    apply NoZ.bindZ (P := fun (_ : Img) => True)
    · exact resizeM_noz image _ _
    · exact Succ.topM _
    · intro resized _
      exact cropM_noz resized _ _ _ _

theorem resize_proportionally_noz (I : Imager) (image : Img)
    (hw : image.width ≠ 0) (hh : image.height ≠ 0) :
    NoZ (I.resize_proportionally image) := by
  unfold Imager.resize_proportionally
  split
  · apply NoZ.bindZ (P := fun (_ : Nat) => True)
    · exact NoZ.liftEZ (intScale_ne _ _ _ hw)
    · exact Succ.topM _
    · intro ph _
      exact resizeM_noz image _ _
  · apply NoZ.bindZ (P := fun (_ : Nat) => True)
    · exact NoZ.liftEZ (intScale_ne _ _ _ hh)
    · exact Succ.topM _
    · intro pw _
      exact resizeM_noz image _ _

theorem fit_wide_to_landscape_noz (I : Imager) (image : Img)
    (hw : image.width ≠ 0) (hh : image.height ≠ 0) :
    NoZ (I.fit_wide_to_landscape image) := by
  unfold Imager.fit_wide_to_landscape
  split
  · apply NoZ.bindZ (P := fun (_ : Nat) => True)
    · exact NoZ.liftEZ (intScale_ne _ _ _ hh)
    · exact Succ.topM _
    · intro pw _
      apply NoZ.bindZ (P := fun (_ : Img) => True)
      · exact resizeM_noz image _ _
      · exact Succ.topM _
      · intro resized _
        exact cropM_noz resized _ _ _ _
  · exact resize_proportionally_noz I image hw hh

theorem fit_tall_to_portrait_noz (I : Imager) (image : Img)
    (hw : image.width ≠ 0) (hh : image.height ≠ 0) :
    NoZ (I.fit_tall_to_portrait image) := by
  unfold Imager.fit_tall_to_portrait
  split
  · apply NoZ.bindZ (P := fun (_ : Nat) => True)
    · exact NoZ.liftEZ (intScale_ne _ _ _ hw)
    · exact Succ.topM _
    · intro ph _
      apply NoZ.bindZ (P := fun (_ : Img) => True)
      · exact resizeM_noz image _ _
      · exact Succ.topM _
      · intro resized _
        exact cropM_noz resized _ _ _ _
  · exact resize_proportionally_noz I image hw hh

theorem scale_up_image_noz (I : Imager) (image : Img) (max_w max_h : Nat)
    (hw : image.width ≠ 0) (hh : image.height ≠ 0) :
    NoZ (I.scale_up_image image max_w max_h) := by
  simp only [Imager.scale_up_image]
  apply NoZ.bindZ (P := fun (_ : Frac) => True)
  · exact NoZ.liftEZ (fracDiv_ne _ _ hw)
  · exact Succ.topM _
  · intro rw1 _
    apply NoZ.bindZ (P := fun (_ : Frac) => True)
    · exact NoZ.liftEZ (fracDiv_ne _ _ hh)
    · exact Succ.topM _
    · intro rh1 _
      split
      · exact resizeM_noz image _ _
      · exact NoZ.pureZ image

theorem resize_foreground_noz (I : Imager) (image : Img)
    (hw : image.width ≠ 0) (hh : image.height ≠ 0)
    (hmaxh : 4 * I.output_height / 5 ≠ 0) :
    NoZ (I.resize_foreground image) := by
  simp only [Imager.resize_foreground]
  split
  · exact scale_up_image_noz I image _ _ hw hh
  · exact thumbnailM_noz image _ _ hh hmaxh

theorem convert_image_for_border_noz (I : Imager) (image : Img) (htb : Bool) :
    NoZ (I.convert_image_for_border image htb) := by
  unfold Imager.convert_image_for_border
  split
  · split
    · exact convertM_noz image _
    · exact NoZ.pureZ image
  · split
    · exact convertM_noz image _
    · exact NoZ.pureZ image

theorem calculate_safe_border_width_noz (I : Imager) (image : Img) :
    NoZ (I.calculate_safe_border_width image) := by
  simp only [Imager.calculate_safe_border_width]
  split
  · apply NoZ.bindZ (P := fun (_ : Unit) => True)
    · exact NoZ.warnEZ
    · exact Succ.topM _
    · intro u _
      exact NoZ.pureZ _
  · exact NoZ.pureZ _

theorem apply_border_noz (I : Imager) (image : Img) : NoZ (I.apply_border image) := by
  simp only [Imager.apply_border]
  split
  · exact NoZ.pureZ image
  · apply NoZ.bindZ (P := fun (_ : Img) => True)
    · exact convert_image_for_border_noz I image _
    · exact Succ.topM _
    · intro image2 _
      apply NoZ.bindZ (P := fun (_ : Int) => True)
      · exact calculate_safe_border_width_noz I image2
      · exact Succ.topM _
      · intro bw _
        split
        · exact expandM_noz image2 bw
        · exact NoZ.pureZ image2

theorem create_foreground_image_noz (I : Imager) (image : Img)
    (hw : image.width ≠ 0) (hh : image.height ≠ 0)
    (hmaxh : 4 * I.output_height / 5 ≠ 0) :
    NoZ (I.create_foreground_image image) := by
  unfold Imager.create_foreground_image
  apply NoZ.bindZ (P := fun c => c.width = image.width ∧ c.height = image.height)
  · exact copyM_noz image
  · exact Succ.weakenM (copyM_spec image) (fun c hc => ⟨hc.1, hc.2.1⟩)
  · intro fg1 hfg1
    apply NoZ.bindZ (P := fun (_ : Img) => True)
    · exact resize_foreground_noz I fg1 (hfg1.1 ▸ hw) (hfg1.2 ▸ hh) hmaxh
    · exact Succ.topM _
    · intro fg2 _
      apply NoZ.bindZ (P := fun (_ : Img) => True)
      · exact autocontrastM_noz fg2
      · exact Succ.topM _
      · intro fg3 _
        apply NoZ.bindZ (P := fun (_ : Img) => True)
        · exact apply_border_noz I fg3
        · exact Succ.topM _
        · intro fg4 _
          exact NoZ.pureZ fg4

theorem ratioLt_eq (a b c d : Nat) (hb : b ≠ 0) (hd : d ≠ 0) :
    ratioLt a b c d = Except.ok (decide (a * d < c * b)) := by
  unfold ratioLt
  rw [if_neg hb, if_neg hd]

theorem ratioGt_eq (a b c d : Nat) (hb : b ≠ 0) (hd : d ≠ 0) :
    ratioGt a b c d = Except.ok (decide (c * b < a * d)) := by
  unfold ratioGt
  rw [if_neg hb, if_neg hd]

theorem intScale_eq (a b c : Nat) (hc : c ≠ 0) :
    intScale a b c = Except.ok (a * b / c) := by
  unfold intScale
  rw [if_neg hc]

theorem calculate_landscape_canvas_eq (I : Imager) (image : Img)
    (hw : image.width ≠ 0) (hh : image.height ≠ 0) (hH : I.output_height ≠ 0) :
    I.calculate_landscape_canvas image = Except.ok
      (if image.width * I.output_height < I.output_width * image.height
        then (I.output_width, I.output_width * image.height / image.width)
        else (I.output_height * image.width / image.height, I.output_height)) := by
  unfold Imager.calculate_landscape_canvas
  rw [ratioLt_eq _ _ _ _ hh hH, exc_bind_ok]
  by_cases hcmp : image.width * I.output_height < I.output_width * image.height
  · rw [if_pos hcmp]
    show (if decide (image.width * I.output_height < I.output_width * image.height)
        = true then _ else _) = _
    rw [if_pos (decide_eq_true hcmp), intScale_eq _ _ _ hw, exc_bind_ok]
    rfl
  · rw [if_neg hcmp]
    show (if decide (image.width * I.output_height < I.output_width * image.height)
        = true then _ else _) = _
    rw [if_neg (by simp [hcmp]), intScale_eq _ _ _ hh, exc_bind_ok]
    rfl

theorem calculate_portrait_canvas_eq (I : Imager) (image : Img)
    (hw : image.width ≠ 0) (hh : image.height ≠ 0) (hH : I.output_height ≠ 0) :
    I.calculate_portrait_canvas image = Except.ok
      (if I.output_width * image.height < image.width * I.output_height
        then (I.output_height * image.width / image.height, I.output_height)
        else (I.output_width, I.output_width * image.height / image.width)) := by
  unfold Imager.calculate_portrait_canvas
  rw [ratioGt_eq _ _ _ _ hh hH, exc_bind_ok]
  by_cases hcmp : I.output_width * image.height < image.width * I.output_height
  · rw [if_pos hcmp]
    show (if decide (I.output_width * image.height < image.width * I.output_height)
        = true then _ else _) = _
    rw [if_pos (decide_eq_true hcmp), intScale_eq _ _ _ hh, exc_bind_ok]
    rfl
  · rw [if_neg hcmp]
    show (if decide (I.output_width * image.height < image.width * I.output_height)
        = true then _ else _) = _
    rw [if_neg (by simp [hcmp]), intScale_eq _ _ _ hw, exc_bind_ok]
    rfl

theorem calculate_canvas_dimensions_cover (I : Imager) (image : Img)
    (hw : 0 < image.width) (hh : 0 < image.height) (hH : 0 < I.output_height) :
    ∃ cw ch, I.calculate_canvas_dimensions image = Except.ok (cw, ch) ∧
      I.output_width ≤ cw ∧ I.output_height ≤ ch := by
  have hw0 : image.width ≠ 0 := Nat.pos_iff_ne_zero.mp hw
  have hh0 : image.height ≠ 0 := Nat.pos_iff_ne_zero.mp hh
  have hH0 : I.output_height ≠ 0 := Nat.pos_iff_ne_zero.mp hH
  unfold Imager.calculate_canvas_dimensions
  split
  · rw [calculate_landscape_canvas_eq I image hw0 hh0 hH0]
    by_cases hcmp : image.width * I.output_height < I.output_width * image.height
    · rw [if_pos hcmp]
      refine ⟨_, _, rfl, le_refl _, ?_⟩
      rw [Nat.le_div_iff_mul_le hw]
      calc I.output_height * image.width
          = image.width * I.output_height := Nat.mul_comm _ _
        _ ≤ I.output_width * image.height := Nat.le_of_lt hcmp
    · rw [if_neg hcmp]
      refine ⟨_, _, rfl, ?_, le_refl _⟩
      rw [Nat.le_div_iff_mul_le hh]
      calc I.output_width * image.height
          ≤ image.width * I.output_height := Nat.le_of_not_lt hcmp
        _ = I.output_height * image.width := Nat.mul_comm _ _
  · rw [calculate_portrait_canvas_eq I image hw0 hh0 hH0]
    by_cases hcmp : I.output_width * image.height < image.width * I.output_height
    · rw [if_pos hcmp]
      refine ⟨_, _, rfl, ?_, le_refl _⟩
      rw [Nat.le_div_iff_mul_le hh]
      calc I.output_width * image.height
          ≤ image.width * I.output_height := Nat.le_of_lt hcmp
        _ = I.output_height * image.width := Nat.mul_comm _ _
    · rw [if_neg hcmp]
      refine ⟨_, _, rfl, le_refl _, ?_⟩
      rw [Nat.le_div_iff_mul_le hw]
      calc I.output_height * image.width
          = image.width * I.output_height := Nat.mul_comm _ _
        _ ≤ I.output_width * image.height := Nat.le_of_not_lt hcmp

theorem calculate_canvas_dimensions_ne (I : Imager) (image : Img)
    (hw : image.width ≠ 0) (hh : image.height ≠ 0) (hH : I.output_height ≠ 0) :
    I.calculate_canvas_dimensions image ≠ Except.error PyErr.zeroDivisionError := by
  obtain ⟨cw, ch, heq, -, -⟩ := calculate_canvas_dimensions_cover I image
    (Nat.pos_iff_ne_zero.mpr hw) (Nat.pos_iff_ne_zero.mpr hh) (Nat.pos_iff_ne_zero.mpr hH)
  rw [heq]
  simp

theorem resize_image_for_background_noz (I : Imager) (image : Img)
    (hw : image.width ≠ 0) (hh : image.height ≠ 0) (hH : I.output_height ≠ 0) :
    NoZ (I.resize_image_for_background image) := by
  unfold Imager.resize_image_for_background
  apply NoZ.bindZ (P := fun (_ : Nat × Nat) => True)
  · exact NoZ.liftEZ (calculate_canvas_dimensions_ne I image hw hh hH)
  · exact Succ.topM _
  · intro cd _
    split
    · apply NoZ.bindZ (P := fun (_ : Unit) => True)
      · exact NoZ.warnEZ
      · exact Succ.topM _
      · intro u _
        exact newM_noz _ _
    · exact resizeM_noz image _ _

theorem crop_image_and_ensure_size_noz (I : Imager) (canvas : Img)
    (crop_box : Int × Int × Int × Int) :
    NoZ (I.crop_image_and_ensure_size canvas crop_box) := by
  unfold Imager.crop_image_and_ensure_size
  apply NoZ.bindZ (P := fun (_ : Img) => True)
  · exact cropM_noz canvas _ _ _ _
  · exact Succ.topM _
  · intro background _
    split
    · exact resizeM_noz background _ _
    · exact NoZ.pureZ background

theorem create_background_image_noz (I : Imager) (image : Img)
    (hw : image.width ≠ 0) (hh : image.height ≠ 0) (hH : I.output_height ≠ 0) :
    NoZ (I.create_background_image image) := by
  unfold Imager.create_background_image
  apply NoZ.bindZ (P := fun c => c.width = image.width ∧ c.height = image.height)
  · exact copyM_noz image
  · exact Succ.weakenM (copyM_spec image) (fun c hc => ⟨hc.1, hc.2.1⟩)
  · intro image_copy hcopy
    apply NoZ.bindZ (P := fun (_ : Img) => True)
    · exact resize_image_for_background_noz I image_copy
        (hcopy.1 ▸ hw) (hcopy.2 ▸ hh) hH
    · exact Succ.topM _
    · intro canvas _
      apply NoZ.bindZ (P := fun (_ : Img) => True)
      · exact crop_image_and_ensure_size_noz I canvas _
      · exact Succ.topM _
      · intro background _
        split
        · exact blurM_noz background _
        · exact NoZ.pureZ background

theorem create_combo_noz (I : Imager) (image : Img)
    (hw : image.width ≠ 0) (hh : image.height ≠ 0) (hH : I.output_height ≠ 0)
    (hmaxh : 4 * I.output_height / 5 ≠ 0) :
    NoZ (I.create_combo image) := by
  unfold Imager.create_combo
  apply NoZ.tryRecoverZ
  apply NoZ.bindZ (P := fun (_ : Img) => True)
  · exact create_foreground_image_noz I image hw hh hmaxh
  · exact Succ.topM _
  · intro foreground _
    apply NoZ.bindZ (P := fun (_ : Img) => True)
    · exact create_background_image_noz I image hw hh hH
    · exact Succ.topM _
    · intro background _
      apply NoZ.bindZ (P := fun (_ : Img) => True)
      · split
        · exact pasteM_noz background foreground _ _ _
        · exact pasteM_noz background foreground _ _ _
      · exact Succ.topM _
      · intro composed _
        exact NoZ.pureZ _

theorem handle_landscape_template_noz (I : Imager) (image : Img)
    (hw : image.width ≠ 0) (hh : image.height ≠ 0) (hH : I.output_height ≠ 0)
    (hmaxh : 4 * I.output_height / 5 ≠ 0) :
    NoZ (I.handle_landscape_template image) := by
  unfold Imager.handle_landscape_template
  apply NoZ.bindZ (P := fun (_ : Bool) => True)
  · split
    · exact NoZ.pureZ true
    · exact NoZ.liftEZ (ratioLt_ne _ _ _ _ hh hH)
  · exact Succ.topM _
  · intro cond _
    split
    · split
      · apply NoZ.bindZ (P := fun (_ : Img) => True)
        · exact fit_portrait_to_landscape_noz I image hw
        · exact Succ.topM _
        · intro r _
          exact NoZ.pureZ _
      · exact create_combo_noz I image hw hh hH hmaxh
    · apply NoZ.bindZ (P := fun (_ : Img) => True)
      · exact fit_wide_to_landscape_noz I image hw hh
      · exact Succ.topM _
      · intro r _
        exact NoZ.pureZ _

theorem handle_portrait_template_noz (I : Imager) (image : Img)
    (hw : image.width ≠ 0) (hh : image.height ≠ 0) (hH : I.output_height ≠ 0)
    (hmaxh : 4 * I.output_height / 5 ≠ 0) :
    NoZ (I.handle_portrait_template image) := by
  unfold Imager.handle_portrait_template
  apply NoZ.bindZ (P := fun (_ : Bool) => True)
  · split
    · exact NoZ.pureZ true
    · exact NoZ.liftEZ (ratioGt_ne _ _ _ _ hh hH)
  · exact Succ.topM _
  · intro cond _
    split
    · split
      · apply NoZ.bindZ (P := fun (_ : Img) => True)
        · exact fit_landscape_to_portrait_noz I image hh
        · exact Succ.topM _
        · intro r _
          exact NoZ.pureZ _
      · exact create_combo_noz I image hw hh hH hmaxh
    · apply NoZ.bindZ (P := fun (_ : Img) => True)
      · exact fit_tall_to_portrait_noz I image hw hh
      · exact Succ.topM _
      · intro r _
        exact NoZ.pureZ _

theorem resize_to_template_noz (I : Imager) (img : Img)
    (hw : img.width ≠ 0) (hh : img.height ≠ 0) (hH : I.output_height ≠ 0)
    (hmaxh : 4 * I.output_height / 5 ≠ 0) :
    NoZ (I.resize_to_template img) := by
  unfold Imager.resize_to_template
  apply NoZ.tryRecoverZ
  apply NoZ.bindZ (P := fun c => c.width = img.width ∧ c.height = img.height)
  · exact convert_image_mode_noz I img
  · exact Succ.weakenM (convert_image_mode_spec I img) (fun c hc => ⟨hc.1, hc.2.1⟩)
  · intro c hc
    split
    · exact create_combo_noz I c (hc.1 ▸ hw) (hc.2 ▸ hh) hH hmaxh
    · split
      · exact handle_landscape_template_noz I c (hc.1 ▸ hw) (hc.2 ▸ hh) hH hmaxh
      · exact handle_portrait_template_noz I c (hc.1 ▸ hw) (hc.2 ▸ hh) hH hmaxh

theorem M.bind_congr {α β : Type} {m : M α} {f g : α → M β}
    (h : ∀ o n a n1 t1, m o n = (Except.ok a, n1, t1) → f a = g a) :
    M.bind m f = M.bind m g := by
  funext o n
  unfold M.bind
  rcases hm : m o n with ⟨res, n1, t1⟩
  cases res with
  | error e => rfl
  | ok a =>
    show (match f a o n1 with
      | (r, n2, t2) => (r, n2, t1 ++ t2))
        = (match g a o n1 with
      | (r, n2, t2) => (r, n2, t1 ++ t2))
    rw [h o n a n1 t1 hm]

theorem bindM_congr {α β : Type} {m : M α} {f g : α → M β}
    (h : ∀ o n a n1 t1, m o n = (Except.ok a, n1, t1) → f a = g a) :
    (m >>= f) = (m >>= g) := M.bind_congr h

theorem liftE_ok_bind {α β : Type} (a : α) (k : α → M β) :
    (liftE (Except.ok a) >>= k) = k a := by
  funext o n
  show (match k a o n with
    | (r, n2, t2) => (r, n2, ([] : List Op) ++ t2)) = k a o n
  rcases hk : k a o n with ⟨res, n2, t2⟩
  rfl

theorem pure_bindM {α β : Type} (a : α) (k : α → M β) :
    ((pure a : M α) >>= k) = k a := by
  funext o n
  show (match k a o n with
    | (r, n2, t2) => (r, n2, ([] : List Op) ++ t2)) = k a o n
  rcases hk : k a o n with ⟨res, n2, t2⟩
  rfl

theorem tryRecover_error {m : M (Option Img)} {o : Oracle} {n : Nat} {e : PyErr}
    (h : (tryRecover m o n).1 = Except.error e) : e = PyErr.zeroDivisionError := by
  unfold tryRecover at h
  rcases hm : m o n with ⟨res, n1, t1⟩
  rw [hm] at h
  cases res with
  | ok a =>
    have h2 : (Except.ok a : Except PyErr (Option Img)) = Except.error e := h
    simp at h2
  | error e2 =>
    have h2 : ((if catchable e2 then (Except.ok none, n1, t1)
        else ((Except.error e2 : Except PyErr (Option Img)), n1, t1))
        : Except PyErr (Option Img) × Nat × List Op).1 = Except.error e := h
    by_cases hc : catchable e2
    · rw [if_pos hc] at h2
      simp at h2
    · rw [if_neg hc] at h2
      have h3 : (Except.error e2 : Except PyErr (Option Img)) = Except.error e := h2
      simp only [Except.error.injEq] at h3
      subst h3
      cases e2 <;> simp [catchable] at hc ⊢

theorem resize_to_template_error (I : Imager) (img : Img) (o : Oracle) (n : Nat)
    (e : PyErr) (h : (I.resize_to_template img o n).1 = Except.error e) :
    e = PyErr.zeroDivisionError := by
  unfold Imager.resize_to_template at h
  exact tryRecover_error h

/-- Routing lemma: a too-small image is always handled by the combo
builder, whatever the rest of the run does. -/
theorem resize_small_eq_combo (I : Imager) (img : Img)
    (hsmall : I.is_image_too_small_for_template img = true) :
    I.resize_to_template img
      = tryRecover (I.convert_image_mode img >>= I.create_combo) := by
  unfold Imager.resize_to_template
  apply congrArg tryRecover
  apply bindM_congr
  intro o n c n1 t1 hc
  have hdims := Succ.elim (convert_image_mode_spec I img) hc
  have hsm : I.is_image_too_small_for_template c = true := by
    unfold Imager.is_image_too_small_for_template at hsmall ⊢
    rw [hdims.1, hdims.2.1]
    exact hsmall
  show (if I.is_image_too_small_for_template c then I.create_combo c
    else if I.is_template_landscape then I.handle_landscape_template c
    else I.handle_portrait_template c) = I.create_combo c
  rw [hsm]
  rfl

/-- Routing lemma: with a landscape template and a not-too-small,
non-portrait, not-too-narrow image, processing reduces to the wide-fit
handler (whose own body branches on `force_fit`). -/
theorem resize_wide_eq_fit (I : Imager) (img : Img)
    (hsmall : I.is_image_too_small_for_template img = false)
    (hland : I.is_template_landscape = true)
    (hport : I.is_image_portrait img = false)
    (hnarrow : I.is_image_too_narrow_for_template img = Except.ok false) :
    I.resize_to_template img = tryRecover (I.convert_image_mode img >>= fun c =>
      I.fit_wide_to_landscape c >>= fun r => pure (some r)) := by
  unfold Imager.resize_to_template
  apply congrArg tryRecover
  apply bindM_congr
  intro o n c n1 t1 hc
  have hdims := Succ.elim (convert_image_mode_spec I img) hc
  have hsm : I.is_image_too_small_for_template c = false := by
    unfold Imager.is_image_too_small_for_template at hsmall ⊢
    rw [hdims.1, hdims.2.1]
    exact hsmall
  have hportc : I.is_image_portrait c = false := by
    unfold Imager.is_image_portrait at hport ⊢
    rw [hdims.1, hdims.2.1]
    exact hport
  have hnarrowc : I.is_image_too_narrow_for_template c = Except.ok false := by
    unfold Imager.is_image_too_narrow_for_template at hnarrow ⊢
    rw [hdims.1, hdims.2.1]
    exact hnarrow
  rw [hsm, if_neg Bool.false_ne_true, hland, if_pos rfl]
  unfold Imager.handle_landscape_template
  rw [hportc, if_neg Bool.false_ne_true, hnarrowc, liftE_ok_bind]
  rw [if_neg Bool.false_ne_true]

/-- Routing lemma: with a portrait or square template and a
not-too-small, non-landscape, not-too-wide image, processing reduces to
the tall-fit handler. -/
theorem resize_tall_eq_fit (I : Imager) (img : Img)
    (hsmall : I.is_image_too_small_for_template img = false)
    (hland : I.is_template_landscape = false)
    (hlandim : I.is_image_landscape img = false)
    (hwide : I.is_image_too_wide_for_template img = Except.ok false) :
    I.resize_to_template img = tryRecover (I.convert_image_mode img >>= fun c =>
      I.fit_tall_to_portrait c >>= fun r => pure (some r)) := by
  unfold Imager.resize_to_template
  apply congrArg tryRecover
  apply bindM_congr
  intro o n c n1 t1 hc
  have hdims := Succ.elim (convert_image_mode_spec I img) hc
  have hsm : I.is_image_too_small_for_template c = false := by
    unfold Imager.is_image_too_small_for_template at hsmall ⊢
    rw [hdims.1, hdims.2.1]
    exact hsmall
  have hlandc : I.is_image_landscape c = false := by
    unfold Imager.is_image_landscape at hlandim ⊢
    rw [hdims.1, hdims.2.1]
    exact hlandim
  have hwidec : I.is_image_too_wide_for_template c = Except.ok false := by
    unfold Imager.is_image_too_wide_for_template at hwide ⊢
    rw [hdims.1, hdims.2.1]
    exact hwide
  rw [hsm, if_neg Bool.false_ne_true, hland, if_neg Bool.false_ne_true]
  unfold Imager.handle_portrait_template
  rw [hlandc, if_neg Bool.false_ne_true, hwidec, liftE_ok_bind]
  rw [if_neg Bool.false_ne_true]

theorem convert_image_for_border_spec (I : Imager) (image : Img) (htb : Bool) :
    Succ (I.convert_image_for_border image htb)
      (fun c => c.width = image.width ∧ c.height = image.height) := by
  unfold Imager.convert_image_for_border
  split
  · split
    · exact Succ.weakenM (convertM_spec image _) (fun c hc => ⟨hc.1, hc.2.1⟩)
    · exact Succ.pureM ⟨rfl, rfl⟩
  · split
    · exact Succ.weakenM (convertM_spec image _) (fun c hc => ⟨hc.1, hc.2.1⟩)
    · exact Succ.pureM ⟨rfl, rfl⟩

theorem calculate_safe_border_width_clamp (I : Imager) (image : Img) (o : Oracle)
    (n : Nat) (ma : Int)
    (hma : ma = min (Int.fdiv ((I.output_width : Int) - (image.width : Int)) 2)
      (Int.fdiv ((I.output_height : Int) - (image.height : Int)) 2))
    (h1 : 0 < ma) (h2 : ma < I.config.foreground_border_width) :
    I.calculate_safe_border_width image o n = (Except.ok ma, n, [Op.warn]) := by
  subst hma
  simp only [Imager.calculate_safe_border_width]
  rw [if_pos ⟨h1, h2⟩]
  rfl

theorem calculate_safe_border_width_noclamp (I : Imager) (image : Img) (o : Oracle)
    (n : Nat) (ma : Int)
    (hma : ma = min (Int.fdiv ((I.output_width : Int) - (image.width : Int)) 2)
      (Int.fdiv ((I.output_height : Int) - (image.height : Int)) 2))
    (h1 : ¬(0 < ma ∧ ma < I.config.foreground_border_width)) :
    I.calculate_safe_border_width image o n
      = (Except.ok I.config.foreground_border_width, n, []) := by
  subst hma
  simp only [Imager.calculate_safe_border_width]
  rw [if_neg h1]
  rfl

theorem calculate_safe_border_width_spec (I : Imager) (image : Img) :
    Succ (I.calculate_safe_border_width image)
      (fun bw => bw =
        (if 0 < min (Int.fdiv ((I.output_width : Int) - (image.width : Int)) 2)
              (Int.fdiv ((I.output_height : Int) - (image.height : Int)) 2)
            ∧ min (Int.fdiv ((I.output_width : Int) - (image.width : Int)) 2)
              (Int.fdiv ((I.output_height : Int) - (image.height : Int)) 2)
              < I.config.foreground_border_width
          then min (Int.fdiv ((I.output_width : Int) - (image.width : Int)) 2)
            (Int.fdiv ((I.output_height : Int) - (image.height : Int)) 2)
          else I.config.foreground_border_width)) := by
  apply Succ.intro
  intro o n r n2 t h
  by_cases hcond : 0 < min (Int.fdiv ((I.output_width : Int) - (image.width : Int)) 2)
      (Int.fdiv ((I.output_height : Int) - (image.height : Int)) 2)
    ∧ min (Int.fdiv ((I.output_width : Int) - (image.width : Int)) 2)
      (Int.fdiv ((I.output_height : Int) - (image.height : Int)) 2)
      < I.config.foreground_border_width
  · rw [calculate_safe_border_width_clamp I image o n _ rfl hcond.1 hcond.2] at h
    simp only [Prod.mk.injEq, Except.ok.injEq] at h
    rw [if_pos hcond]
    exact h.1.symm
  · rw [calculate_safe_border_width_noclamp I image o n _ rfl hcond] at h
    simp only [Prod.mk.injEq, Except.ok.injEq] at h
    rw [if_neg hcond]
    exact h.1.symm

theorem fracDiv_eq (a b : Nat) (h : b ≠ 0) : fracDiv a b = Except.ok ⟨a, b⟩ := by
  unfold fracDiv
  rw [if_neg h]

theorem Frac.fmin_cases (a b : Frac) : Frac.fmin a b = a ∨ Frac.fmin a b = b := by
  unfold Frac.fmin
  split
  · exact Or.inl rfl
  · exact Or.inr rfl

theorem Frac.fle_fmin_right (a b : Frac) : Frac.fle (Frac.fmin a b) b = true := by
  unfold Frac.fmin
  split
  · next h => exact h
  · unfold Frac.fle
    simp

theorem Frac.fmin_den_pos {a b : Frac} (ha : 0 < a.den) (hb : 0 < b.den) :
    0 < (Frac.fmin a b).den := by
  rcases Frac.fmin_cases a b with h | h <;> rw [h] <;> assumption

theorem Frac.fmin_one_le {a b : Frac} (ha : a.den ≤ a.num) (hb : b.den ≤ b.num) :
    (Frac.fmin a b).den ≤ (Frac.fmin a b).num := by
  rcases Frac.fmin_cases a b with h | h <;> rw [h] <;> assumption

theorem Frac.le_scaleTrunc (n : Nat) (f : Frac) (hden : 0 < f.den)
    (hone : f.den ≤ f.num) : n ≤ Frac.scaleTrunc n f := by
  unfold Frac.scaleTrunc
  have h1 : n * f.den / f.den ≤ n * f.num / f.den :=
    Nat.div_le_div_right (Nat.mul_le_mul_left n hone)
  have h2 : n * f.den / f.den = n := by
    rw [Nat.mul_div_assoc n (dvd_refl f.den), Nat.div_self hden, Nat.mul_one]
  rw [h2] at h1
  exact h1

theorem Frac.scaleTrunc_le_double (n : Nat) (f : Frac) (hden : 0 < f.den)
    (hle : f.num ≤ 2 * f.den) : Frac.scaleTrunc n f ≤ 2 * n := by
  unfold Frac.scaleTrunc
  have h1 : n * f.num ≤ 2 * n * f.den := by
    calc n * f.num ≤ n * (2 * f.den) := Nat.mul_le_mul_left n hle
      _ = 2 * n * f.den := by ring
  calc n * f.num / f.den ≤ 2 * n * f.den / f.den := Nat.div_le_div_right h1
    _ = 2 * n := by
      rw [Nat.mul_div_assoc (2 * n) (dvd_refl f.den), Nat.div_self hden, Nat.mul_one]

theorem apply_border_spec (I : Imager) (image : Img)
    (hborder : I.config.foreground_border = true)
    (hbw : 0 < I.config.foreground_border_width) :
    Succ (I.apply_border image)
      (fun r =>
        r.width = ((image.width : Int) + 2 *
          (if 0 < min (Int.fdiv ((I.output_width : Int) - (image.width : Int)) 2)
                (Int.fdiv ((I.output_height : Int) - (image.height : Int)) 2)
              ∧ min (Int.fdiv ((I.output_width : Int) - (image.width : Int)) 2)
                (Int.fdiv ((I.output_height : Int) - (image.height : Int)) 2)
                < I.config.foreground_border_width
            then min (Int.fdiv ((I.output_width : Int) - (image.width : Int)) 2)
              (Int.fdiv ((I.output_height : Int) - (image.height : Int)) 2)
            else I.config.foreground_border_width)).toNat
        ∧ r.height = ((image.height : Int) + 2 *
          (if 0 < min (Int.fdiv ((I.output_width : Int) - (image.width : Int)) 2)
                (Int.fdiv ((I.output_height : Int) - (image.height : Int)) 2)
              ∧ min (Int.fdiv ((I.output_width : Int) - (image.width : Int)) 2)
                (Int.fdiv ((I.output_height : Int) - (image.height : Int)) 2)
                < I.config.foreground_border_width
            then min (Int.fdiv ((I.output_width : Int) - (image.width : Int)) 2)
              (Int.fdiv ((I.output_height : Int) - (image.height : Int)) 2)
            else I.config.foreground_border_width)).toNat) := by
  simp only [Imager.apply_border]
  rw [if_neg (by
    intro hcon
    rcases hcon with hcon | hcon
    · rw [hborder] at hcon
      exact Bool.noConfusion hcon
    · omega)]
  apply Succ.bindM (P := fun c => c.width = image.width ∧ c.height = image.height)
  · exact convert_image_for_border_spec I image _
  · intro image2 h2
    apply Succ.bindM (P := fun bw => bw =
      (if 0 < min (Int.fdiv ((I.output_width : Int) - (image.width : Int)) 2)
            (Int.fdiv ((I.output_height : Int) - (image.height : Int)) 2)
          ∧ min (Int.fdiv ((I.output_width : Int) - (image.width : Int)) 2)
            (Int.fdiv ((I.output_height : Int) - (image.height : Int)) 2)
            < I.config.foreground_border_width
        then min (Int.fdiv ((I.output_width : Int) - (image.width : Int)) 2)
          (Int.fdiv ((I.output_height : Int) - (image.height : Int)) 2)
        else I.config.foreground_border_width))
    · have h3 := calculate_safe_border_width_spec I image2
      rw [h2.1, h2.2] at h3
      exact h3
    · intro bw hbw2
      split
      · apply Succ.weakenM (expandM_spec image2 bw)
        intro c hc
        rw [hc.1, hc.2.1, h2.1, h2.2, hbw2]
        exact ⟨rfl, rfl⟩
      · next hpos =>
        exfalso
        rw [hbw2] at hpos
        by_cases hcond : 0 < min (Int.fdiv ((I.output_width : Int) - (image.width : Int)) 2)
            (Int.fdiv ((I.output_height : Int) - (image.height : Int)) 2)
          ∧ min (Int.fdiv ((I.output_width : Int) - (image.width : Int)) 2)
            (Int.fdiv ((I.output_height : Int) - (image.height : Int)) 2)
            < I.config.foreground_border_width
        · rw [if_pos hcond] at hpos
          exact hpos hcond.1
        · rw [if_neg hcond] at hpos
          exact hpos hbw

/-- Claim C6: when a border is applied (border enabled, configured
width positive), with `max_allowed` the minimum template margin: if
`0 < max_allowed < configured width`, the Border Sizer returns
`max_allowed` and logs a warning; if `max_allowed ≤ 0`, it returns the
configured width unclamped (never reduced to 0); and the border
actually applied by `_apply_border` expands the image by exactly that
returned width on each side. -/
theorem C6_border_width_policy (I : Imager) (image : Img) (o : Oracle) (n : Nat)
    (ma : Int)
    (hma : ma = min (Int.fdiv ((I.output_width : Int) - (image.width : Int)) 2)
      (Int.fdiv ((I.output_height : Int) - (image.height : Int)) 2))
    (hborder : I.config.foreground_border = true)
    (hbw : 0 < I.config.foreground_border_width) :
    (0 < ma ∧ ma < I.config.foreground_border_width →
      I.calculate_safe_border_width image o n = (Except.ok ma, n, [Op.warn]))
    ∧ (ma ≤ 0 →
      I.calculate_safe_border_width image o n
        = (Except.ok I.config.foreground_border_width, n, []))
    ∧ (∀ r n2 t, I.apply_border image o n = (Except.ok r, n2, t) →
        r.width = ((image.width : Int) + 2 *
          (if 0 < ma ∧ ma < I.config.foreground_border_width
            then ma else I.config.foreground_border_width)).toNat
        ∧ r.height = ((image.height : Int) + 2 *
          (if 0 < ma ∧ ma < I.config.foreground_border_width
            then ma else I.config.foreground_border_width)).toNat) := by
  subst hma
  refine ⟨?_, ?_, ?_⟩
  · intro hcl
    exact calculate_safe_border_width_clamp I image o n _ rfl hcl.1 hcl.2
  · intro hle
    apply calculate_safe_border_width_noclamp I image o n _ rfl
    intro hcon
    omega
  · intro r n2 t h
    exact Succ.elim (apply_border_spec I image hborder hbw) h

/-- Claim C7: a source strictly smaller than both 80 percent bounds is
handled by the scale-up routine, whose applied ratio is exactly
min(max_w / orig_w, max_h / orig_h, 2.0): the ratio never exceeds the
2.0 cap and the result never exceeds twice the original dimensions. -/
theorem C7_scale_up_capped (I : Imager) (image : Img)
    (hw0 : 0 < image.width) (hh0 : 0 < image.height)
    (hw : image.width < 4 * I.output_width / 5)
    (hh : image.height < 4 * I.output_height / 5) :
    I.resize_foreground image
        = I.scale_up_image image (4 * I.output_width / 5) (4 * I.output_height / 5)
    ∧ Frac.fle (Frac.fmin (Frac.fmin ⟨4 * I.output_width / 5, image.width⟩
          ⟨4 * I.output_height / 5, image.height⟩) Imager.SCALE_UP_LIMIT)
        Imager.SCALE_UP_LIMIT = true
    ∧ ∀ o n r n2 t, I.resize_foreground image o n = (Except.ok r, n2, t) →
        r.width = Frac.scaleTrunc image.width
            (Frac.fmin (Frac.fmin ⟨4 * I.output_width / 5, image.width⟩
              ⟨4 * I.output_height / 5, image.height⟩) Imager.SCALE_UP_LIMIT)
        ∧ r.height = Frac.scaleTrunc image.height
            (Frac.fmin (Frac.fmin ⟨4 * I.output_width / 5, image.width⟩
              ⟨4 * I.output_height / 5, image.height⟩) Imager.SCALE_UP_LIMIT)
        ∧ r.width ≤ 2 * image.width ∧ r.height ≤ 2 * image.height := by
  have hroute : I.resize_foreground image
      = I.scale_up_image image (4 * I.output_width / 5) (4 * I.output_height / 5) := by
    simp only [Imager.resize_foreground, Imager.should_scale_up]
    rw [if_pos (by simp [hw, hh])]
  have hden : 0 < (Frac.fmin (Frac.fmin ⟨4 * I.output_width / 5, image.width⟩
      ⟨4 * I.output_height / 5, image.height⟩) Imager.SCALE_UP_LIMIT).den :=
    Frac.fmin_den_pos (Frac.fmin_den_pos hw0 hh0) (by decide)
  have hone : (Frac.fmin (Frac.fmin ⟨4 * I.output_width / 5, image.width⟩
        ⟨4 * I.output_height / 5, image.height⟩) Imager.SCALE_UP_LIMIT).den
      ≤ (Frac.fmin (Frac.fmin ⟨4 * I.output_width / 5, image.width⟩
        ⟨4 * I.output_height / 5, image.height⟩) Imager.SCALE_UP_LIMIT).num :=
    Frac.fmin_one_le (Frac.fmin_one_le (Nat.le_of_lt hw) (Nat.le_of_lt hh)) (by decide)
  have hsle : Frac.fle (Frac.fmin (Frac.fmin ⟨4 * I.output_width / 5, image.width⟩
      ⟨4 * I.output_height / 5, image.height⟩) Imager.SCALE_UP_LIMIT)
      Imager.SCALE_UP_LIMIT = true := Frac.fle_fmin_right _ _
  have hsnum : (Frac.fmin (Frac.fmin ⟨4 * I.output_width / 5, image.width⟩
        ⟨4 * I.output_height / 5, image.height⟩) Imager.SCALE_UP_LIMIT).num
      ≤ 2 * (Frac.fmin (Frac.fmin ⟨4 * I.output_width / 5, image.width⟩
        ⟨4 * I.output_height / 5, image.height⟩) Imager.SCALE_UP_LIMIT).den := by
    have h3 := hsle
    unfold Frac.fle at h3
    have h4 := of_decide_eq_true h3
    simp only [Imager.SCALE_UP_LIMIT] at h4 ⊢
    omega
  have hsucc : Succ (I.scale_up_image image (4 * I.output_width / 5)
      (4 * I.output_height / 5))
      (fun r => r.width = Frac.scaleTrunc image.width
          (Frac.fmin (Frac.fmin ⟨4 * I.output_width / 5, image.width⟩
            ⟨4 * I.output_height / 5, image.height⟩) Imager.SCALE_UP_LIMIT)
        ∧ r.height = Frac.scaleTrunc image.height
          (Frac.fmin (Frac.fmin ⟨4 * I.output_width / 5, image.width⟩
            ⟨4 * I.output_height / 5, image.height⟩) Imager.SCALE_UP_LIMIT)) := by
    simp only [Imager.scale_up_image]
    apply Succ.bindM (P := fun fr => fr =
      (⟨4 * I.output_width / 5, image.width⟩ : Frac))
    · apply Succ.liftEM
      intro a ha
      rw [fracDiv_eq _ _ (Nat.pos_iff_ne_zero.mp hw0)] at ha
      injection ha with ha2
      exact ha2.symm
    · intro rw1 hrw1
      subst hrw1
      apply Succ.bindM (P := fun fr => fr =
        (⟨4 * I.output_height / 5, image.height⟩ : Frac))
      · apply Succ.liftEM
        intro a ha
        rw [fracDiv_eq _ _ (Nat.pos_iff_ne_zero.mp hh0)] at ha
        injection ha with ha2
        exact ha2.symm
      · intro rh1 hrh1
        subst hrh1
        show Succ (if 0 < Frac.scaleTrunc image.width
              (Frac.fmin (Frac.fmin ⟨4 * I.output_width / 5, image.width⟩
                ⟨4 * I.output_height / 5, image.height⟩) Imager.SCALE_UP_LIMIT)
            ∧ 0 < Frac.scaleTrunc image.height
              (Frac.fmin (Frac.fmin ⟨4 * I.output_width / 5, image.width⟩
                ⟨4 * I.output_height / 5, image.height⟩) Imager.SCALE_UP_LIMIT)
          then resizeM image (Frac.scaleTrunc image.width
              (Frac.fmin (Frac.fmin ⟨4 * I.output_width / 5, image.width⟩
                ⟨4 * I.output_height / 5, image.height⟩) Imager.SCALE_UP_LIMIT))
            (Frac.scaleTrunc image.height
              (Frac.fmin (Frac.fmin ⟨4 * I.output_width / 5, image.width⟩
                ⟨4 * I.output_height / 5, image.height⟩) Imager.SCALE_UP_LIMIT))
          else pure image) _
        rw [if_pos ⟨Nat.lt_of_lt_of_le hw0 (Frac.le_scaleTrunc _ _ hden hone),
          Nat.lt_of_lt_of_le hh0 (Frac.le_scaleTrunc _ _ hden hone)⟩]
        exact Succ.weakenM (resizeM_spec image _ _) (fun c hc => ⟨hc.1, hc.2.1⟩)
  refine ⟨hroute, hsle, ?_⟩
  intro o n r n2 t h
  rw [hroute] at h
  have h5 := Succ.elim hsucc h
  refine ⟨h5.1, h5.2, ?_, ?_⟩
  · rw [h5.1]
    exact Frac.scaleTrunc_le_double _ _ hden hsnum
  · rw [h5.2]
    exact Frac.scaleTrunc_le_double _ _ hden hsnum

/-- Claim C1 (amended): with `force_fit = true` (the rest of the
configuration arbitrary), positive template and image dimensions, and a
template tall enough that the 80 percent foreground box is nonempty,
`process_image` on a raster returns either None or a raster of exactly
`(output_width, output_height)`, under every pattern of recoverable
primitive failure.  With `force_fit = false` the proportional-resize
branch can return a different size (see the counterexample). -/
theorem C1_exact_size_or_none (I : Imager) (img : Img) (o : Oracle) (n : Nat)
    (hff : I.config.force_fit = true)
    (hw : 0 < img.width) (hh : 0 < img.height)
    (hW : 0 < I.output_width) (hH : 0 < I.output_height)
    (hbox : 0 < 4 * I.output_height / 5) :
    (I.process_image (PyVal.image img) o n).1 = Except.ok none
    ∨ ∃ r, (I.process_image (PyVal.image img) o n).1 = Except.ok (some r)
        ∧ r.width = I.output_width ∧ r.height = I.output_height := by
  have hnoz := resize_to_template_noz I img (Nat.pos_iff_ne_zero.mp hw)
    (Nat.pos_iff_ne_zero.mp hh) (Nat.pos_iff_ne_zero.mp hH) (Nat.pos_iff_ne_zero.mp hbox)
  rcases hrun : I.resize_to_template img o n with ⟨res, n2, t⟩
  have hrun2 : I.process_image (PyVal.image img) o n = (res, n2, t) := hrun
  cases res with
  | error e =>
    exfalso
    have he : e = PyErr.zeroDivisionError :=
      resize_to_template_error I img o n e (by rw [hrun])
    apply NoZ.elimZ hnoz o n
    rw [hrun, he]
  | ok a =>
    cases a with
    | none =>
      left
      rw [hrun2]
    | some r =>
      right
      refine ⟨r, by rw [hrun2], ?_, ?_⟩
      · exact (((Succ.elim (resize_to_template_spec I img) hrun) r rfl).2 hff).1
      · exact (((Succ.elim (resize_to_template_spec I img) hrun) r rfl).2 hff).2

/-- Claim C1 counterexample: with the valid configuration
`force_fit = false`, template 700x365 and the 1000x400 raster, the
process returns a 700x280 raster — neither None nor the template
size. -/
theorem C1_counterexample :
    (IFalse.process_image (PyVal.image img1000) okOracle 0).1
      = Except.ok (some { width := 700, height := 280, mode := Mode.RGB, orig := false })
    ∧ (280 : Nat) ≠ 365 :=
  ⟨rfl, by decide⟩

/-- Claim C1 witness instance. -/
theorem C1_exact_size_or_none_witness :
    (I0.process_image (PyVal.image img1000) okOracle 0).1 = Except.ok none
    ∨ ∃ r, (I0.process_image (PyVal.image img1000) okOracle 0).1 = Except.ok (some r)
        ∧ r.width = I0.output_width ∧ r.height = I0.output_height :=
  C1_exact_size_or_none I0 img1000 okOracle 0 rfl (by decide) (by decide)
    (by decide) (by decide) (by decide)

/-- Claim C2 (corrected/amended): when the image is not too small and
matches the template's orientation class, processing routes to the
same-orientation fit handler for every value of `force_fit`; but that
handler (by its definition) fit-and-crops only when `force_fit` is
true, and resizes proportionally when it is false — so `force_fit` does
change the outcome on this branch (see the counterexample). -/
theorem C2_same_orientation_routing (I : Imager) (img : Img)
    (hsmall : I.is_image_too_small_for_template img = false) :
    (I.is_template_landscape = true → I.is_image_portrait img = false →
      I.is_image_too_narrow_for_template img = Except.ok false →
      I.resize_to_template img = tryRecover (I.convert_image_mode img >>= fun c =>
        I.fit_wide_to_landscape c >>= fun r => pure (some r)))
    ∧ (I.is_template_landscape = false → I.is_image_landscape img = false →
      I.is_image_too_wide_for_template img = Except.ok false →
      I.resize_to_template img = tryRecover (I.convert_image_mode img >>= fun c =>
        I.fit_tall_to_portrait c >>= fun r => pure (some r))) :=
  ⟨fun h1 h2 h3 => resize_wide_eq_fit I img hsmall h1 h2 h3,
   fun h1 h2 h3 => resize_tall_eq_fit I img hsmall h1 h2 h3⟩

/-- Claim C2 counterexample: the 1000x400 image on the 700x365
landscape template is on the same-orientation branch (not too small,
not portrait, not too narrow), yet `force_fit = true` produces a
700x365 crop while `force_fit = false` produces a proportional 700x280
image — the outcome depends on `force_fit`. -/
theorem C2_counterexample :
    I0.is_image_too_small_for_template img1000 = false
    ∧ I0.is_template_landscape = true
    ∧ I0.is_image_portrait img1000 = false
    ∧ I0.is_image_too_narrow_for_template img1000 = Except.ok false
    ∧ ((setForceFit I0 true).process_image (PyVal.image img1000) okOracle 0).1
        = Except.ok (some { width := 700, height := 365, mode := Mode.RGB, orig := false })
    ∧ ((setForceFit I0 false).process_image (PyVal.image img1000) okOracle 0).1
        = Except.ok (some { width := 700, height := 280, mode := Mode.RGB, orig := false })
    ∧ (365 : Nat) ≠ 280 :=
  ⟨rfl, rfl, rfl, rfl, rfl, rfl, by decide⟩

/-- Claim C2 witness instance. -/
theorem C2_same_orientation_routing_witness :
    I0.resize_to_template img1000 = tryRecover (I0.convert_image_mode img1000 >>= fun c =>
      I0.fit_wide_to_landscape c >>= fun r => pure (some r)) :=
  (C2_same_orientation_routing I0 img1000 rfl).1 rfl rfl rfl

/-- Claim C3 (corrected): the numbers in the claim describe the
internal portrait-to-landscape fit function, not `process`.  The crop
box (0, 258, 700, 623) never appears in the trace of
`process_image` on the 200x400 image, because that image is too small
(200 < 0.75 * 700) and is routed to the Composite Builder. -/
theorem C3_counterexample :
    I0.is_image_too_small_for_template img200 = true
    ∧ Op.crop 0 258 700 623 false ∉ (I0.process_image (PyVal.image img200) okOracle 0).2.2
    ∧ Op.crop 0 258 700 623 true ∉ (I0.process_image (PyVal.image img200) okOracle 0).2.2 :=
  ⟨rfl, by decide, by decide⟩

/-- Claim C3 (amended): `_fit_portrait_to_landscape` applied to the
200x400 source with the 700x365 template scales to 700x1400 and crops
with box (0, 258, 700, 623), top offset (1400 - 365) / 4 = 258, giving
a 700x365 result; `process_image` itself routes 200x400 to the
Composite Builder since the image is too small for the template. -/
theorem C3_quarter_offset_fit :
    I0.fit_portrait_to_landscape img200 okOracle 0
      = (Except.ok { width := 700, height := 365, mode := Mode.RGB, orig := false },
         2, [Op.resize 700 1400 true, Op.crop 0 258 700 623 false])
    ∧ I0.is_image_too_small_for_template img200 = true
    ∧ I0.resize_to_template img200
        = tryRecover (I0.convert_image_mode img200 >>= I0.create_combo) :=
  ⟨rfl, rfl, resize_small_eq_combo I0 img200 rfl⟩

/-- Claim C4 (amended): only palette and RGBA inputs are flattened to
opaque RGB; for inputs whose mode is P, RGBA or RGB, every result
`process_image` returns is in RGB mode.  Inputs in other alpha-carrying
or non-true-color modes (e.g. LA) pass through unconverted (see the
counterexample). -/
theorem C4_mode_rgb (I : Imager) (img : Img) (o : Oracle) (n : Nat)
    (hmode : img.mode = Mode.P ∨ img.mode = Mode.RGBA ∨ img.mode = Mode.RGB)
    (r : Img) (h : (I.process_image (PyVal.image img) o n).1 = Except.ok (some r)) :
    r.mode = Mode.RGB := by
  have h3 : (I.resize_to_template img o n).1 = Except.ok (some r) := h
  rcases hrun : I.resize_to_template img o n with ⟨res, n2, t⟩
  rw [hrun] at h3
  have h4 : res = Except.ok (some r) := h3
  subst h4
  exact ((Succ.elim (resize_to_template_spec I img) hrun) r rfl).1 hmode

/-- Claim C4 counterexample: a 700x365 image in LA (grayscale with
alpha) mode is returned in LA mode, not flattened to opaque RGB, even
though it carries an alpha channel. -/
theorem C4_counterexample :
    (I0.process_image (PyVal.image imgLA) okOracle 0).1
      = Except.ok (some { width := 700, height := 365, mode := Mode.LA, orig := false })
    ∧ Mode.LA ≠ Mode.RGB :=
  ⟨rfl, by decide⟩

/-- Claim C4 witness instance. -/
theorem C4_mode_rgb_witness :
    ({ width := 700, height := 365, mode := Mode.RGB, orig := false } : Img).mode
      = Mode.RGB :=
  C4_mode_rgb I0 img200 okOracle 0 (Or.inr (Or.inr rfl))
    { width := 700, height := 365, mode := Mode.RGB, orig := false } rfl

/-- Claim C5: an image too small for the template (width below
0.75 * output_width or height below 0.75 * output_height) is routed to
the Composite Builder for both values of `force_fit`; the too-small
check precedes all orientation branching, and the resulting computation
does not depend on `force_fit` at all. -/
theorem C5_small_routes_to_combo (I : Imager) (img : Img) (b : Bool)
    (hsmall : I.is_image_too_small_for_template img = true) :
    (setForceFit I b).resize_to_template img
      = tryRecover (I.convert_image_mode img >>= I.create_combo) := by
  have h2 : (setForceFit I b).is_image_too_small_for_template img = true := hsmall
  rw [resize_small_eq_combo (setForceFit I b) img h2]
  rfl

/-- Claim C5 witness instance. -/
theorem C5_small_routes_to_combo_witness :
    (setForceFit I0 false).resize_to_template img200
      = tryRecover (I0.convert_image_mode img200 >>= I0.create_combo) :=
  C5_small_routes_to_combo I0 img200 false rfl

/-- Claim C6 witness instance: template 700x365, image 690x360 (margins
5 and 2, so `max_allowed = 2`), configured width 10. -/
theorem C6_border_width_policy_witness :
    (0 < (2 : Int) ∧ (2 : Int) < I6.config.foreground_border_width →
      I6.calculate_safe_border_width img690 okOracle 0 = (Except.ok 2, 0, [Op.warn]))
    ∧ ((2 : Int) ≤ 0 →
      I6.calculate_safe_border_width img690 okOracle 0
        = (Except.ok I6.config.foreground_border_width, 0, []))
    ∧ (∀ r n2 t, I6.apply_border img690 okOracle 0 = (Except.ok r, n2, t) →
        r.width = ((img690.width : Int) + 2 *
          (if 0 < (2 : Int) ∧ (2 : Int) < I6.config.foreground_border_width
            then (2 : Int) else I6.config.foreground_border_width)).toNat
        ∧ r.height = ((img690.height : Int) + 2 *
          (if 0 < (2 : Int) ∧ (2 : Int) < I6.config.foreground_border_width
            then (2 : Int) else I6.config.foreground_border_width)).toNat) :=
  C6_border_width_policy I6 img690 okOracle 0 2 (by decide) rfl (by decide)

/-- Claim C7 witness instance: template 700x365 (80 percent box
560x292), source 50x20. -/
theorem C7_scale_up_capped_witness :
    I0.resize_foreground img50
        = I0.scale_up_image img50 (4 * I0.output_width / 5) (4 * I0.output_height / 5)
    ∧ Frac.fle (Frac.fmin (Frac.fmin ⟨4 * I0.output_width / 5, img50.width⟩
          ⟨4 * I0.output_height / 5, img50.height⟩) Imager.SCALE_UP_LIMIT)
        Imager.SCALE_UP_LIMIT = true
    ∧ ∀ o n r n2 t, I0.resize_foreground img50 o n = (Except.ok r, n2, t) →
        r.width = Frac.scaleTrunc img50.width
            (Frac.fmin (Frac.fmin ⟨4 * I0.output_width / 5, img50.width⟩
              ⟨4 * I0.output_height / 5, img50.height⟩) Imager.SCALE_UP_LIMIT)
        ∧ r.height = Frac.scaleTrunc img50.height
            (Frac.fmin (Frac.fmin ⟨4 * I0.output_width / 5, img50.width⟩
              ⟨4 * I0.output_height / 5, img50.height⟩) Imager.SCALE_UP_LIMIT)
        ∧ r.width ≤ 2 * img50.width ∧ r.height ≤ 2 * img50.height :=
  C7_scale_up_capped I0 img50 (by decide) (by decide) (by decide) (by decide)

/-- Claim C8: for every source image with positive dimensions (and a
valid template), the background canvas computed during composite
construction is at least as large as the template on both axes, despite
integer truncation of the scaled axis. -/
theorem C8_canvas_covers_template (I : Imager) (image : Img)
    (hW : 0 < I.output_width) (hH : 0 < I.output_height)
    (hw : 0 < image.width) (hh : 0 < image.height) :
    ∃ cw ch, I.calculate_canvas_dimensions image = Except.ok (cw, ch)
      ∧ I.output_width ≤ cw ∧ I.output_height ≤ ch :=
  calculate_canvas_dimensions_cover I image hw hh hH

/-- Claim C8 witness instance. -/
theorem C8_canvas_covers_template_witness :
    ∃ cw ch, I0.calculate_canvas_dimensions img200 = Except.ok (cw, ch)
      ∧ I0.output_width ≤ cw ∧ I0.output_height ≤ ch :=
  C8_canvas_covers_template I0 img200 (by decide) (by decide) (by decide) (by decide)

/-- Claim C9: `process_image` raises ValueError exactly when its
argument is not a raster; for raster arguments, every recoverable
failure class (OSError, ValueError, UnidentifiedImageError — raised by
any primitive at any point, as chosen by the oracle) is caught at the
resize or composite boundary, so the only exception that can escape is
ZeroDivisionError, which is outside the recoverable class. -/
theorem C9_usage_error_and_recovery (I : Imager) (o : Oracle) (n : Nat) :
    (I.process_image PyVal.notImage o n).1 = Except.error PyErr.valueError
    ∧ ∀ img e, (I.process_image (PyVal.image img) o n).1 = Except.error e →
        e = PyErr.zeroDivisionError := by
  constructor
  · rfl
  · intro img e h
    exact resize_to_template_error I img o n e h

/-- Claim C9 witness instance (the error case is exhibited by the
degenerate zero-size raster, whose division by zero escapes). -/
theorem C9_usage_error_and_recovery_witness :
    (I0.process_image PyVal.notImage okOracle 0).1 = Except.error PyErr.valueError
    ∧ PyErr.zeroDivisionError = PyErr.zeroDivisionError :=
  ⟨(C9_usage_error_and_recovery I0 okOracle 0).1,
   (C9_usage_error_and_recovery I0 okOracle 0).2 img0 PyErr.zeroDivisionError rfl⟩

/-- Claim C10: `process_image` never mutates the caller's image object:
for every oracle, configuration, template and input size and mode, no
trace entry records an in-place primitive (thumbnail, paste) applied to
the caller's original object — they only ever act on internal copies. -/
theorem C10_no_input_mutation (I : Imager) (w h : Nat) (m : Mode)
    (o : Oracle) (n : Nat) :
    ((I.process_image (PyVal.image { width := w, height := h, mode := m, orig := true })
      o n).2.2).all (fun op => !(mutatesOriginal op)) = true := by
  rw [List.all_eq_true]
  intro op hop
  have h2 := Clean.elimC (resize_to_template_clean I
    { width := w, height := h, mode := m, orig := true }) hop
  rw [h2]
  rfl
